import Mathlib

/- Verification of the geodetic direction-finding engine of SATER-Map
   (src/main.py).  The Python floating-point code is embedded shallowly over
   the real numbers: every definition below mirrors the corresponding Python
   function line by line, with Python `math` functions replaced by their
   Mathlib counterparts, Python `int()` truncation by `pyInt`, Python float
   `%` by `pyMod`, and Python banker's rounding `round(x, n)` by `pyRound`.
   Presentation-only fields of the `Station` dataclass (callsign, color,
   notes, ...) are omitted; the engine reads only lat, lon, azimuth and
   visible. -/

namespace SaterMap

open Real

noncomputable section

/-- Python `math.radians`. -/
def radians (x : ℝ) : ℝ := x * (π / 180)

/-- Python `math.degrees`. -/
def degrees (x : ℝ) : ℝ := x * (180 / π)

/-- Python `math.atan2 y x` over the reals (ℝ has no signed zeros, so the
`x = 0` and `y = 0` cases follow the `+0.0` behaviour). -/
def atan2 (y x : ℝ) : ℝ :=
  if 0 < x then arctan (y / x)
  else if x < 0 then (if 0 ≤ y then arctan (y / x) + π else arctan (y / x) - π)
  else if 0 < y then π / 2
  else if y < 0 then -(π / 2)
  else 0

/-- Python `int()` applied to a float: truncation toward zero. -/
def pyInt (x : ℝ) : ℤ := if 0 ≤ x then ⌊x⌋ else -⌊-x⌋

/-- Python float `%` (sign follows the divisor; used with positive divisors). -/
def pyMod (x m : ℝ) : ℝ := x - m * ⌊x / m⌋

/-- Round to the nearest integer, ties to even: the rounding used by Python
`round`. `round` from Mathlib rounds ties up, so ties are redirected. -/
def roundHalfEven (x : ℝ) : ℤ :=
  if Int.fract x = 1 / 2 then 2 * round (x / 2) else round x

/-- Python `round(x, n)` for floats (idealized over ℝ). -/
def pyRound (x : ℝ) (n : ℕ) : ℝ := (roundHalfEven (x * 10 ^ n) : ℝ) / 10 ^ n

/-- Hemisphere letter of a DMS coordinate. -/
inductive Hemisphere where
  | N | S | E | W
deriving DecidableEq

/-- Axis selector of `dd_to_dms` (the Python string argument "lat"/"lon"). -/
inductive CoordType where
  | lat | lon
deriving DecidableEq

/-- `dms_to_dd` from src/main.py: degrees/minutes/seconds plus hemisphere to
decimal degrees, rounded to 6 decimals.  The Python function performs no
range validation whatsoever. -/
def dms_to_dd (deg minutes : ℤ) (seconds : ℝ) (direction : Hemisphere) : ℝ :=
  pyRound (if direction = Hemisphere.W ∨ direction = Hemisphere.S
    then -((deg : ℝ) + (minutes : ℝ) / 60 + seconds / 3600)
    else (deg : ℝ) + (minutes : ℝ) / 60 + seconds / 3600) 6

/-- `dd_to_dms` from src/main.py. -/
def dd_to_dms (dd : ℝ) (coordType : CoordType) : ℤ × ℤ × ℝ × Hemisphere :=
  let isPositive := 0 ≤ dd
  let dd := |dd|
  let deg := pyInt dd
  let minutes := pyInt ((dd - (deg : ℝ)) * 60)
  let seconds := pyRound ((dd - (deg : ℝ) - (minutes : ℝ) / 60) * 3600) 2
  let direction := match coordType with
    | CoordType.lat => if isPositive then Hemisphere.N else Hemisphere.S
    | CoordType.lon => if isPositive then Hemisphere.E else Hemisphere.W
  (deg, minutes, seconds, direction)

/-- Spec model of `dmsToDecimal` (spec section 4.1): the exact formula, failing
with `InvalidInput` (modelled as `none`) when a component is out of range
(`deg ≥ 0`, `min ∈ [0,59]`, `sec ∈ [0,60)`). -/
def dms_to_dd_spec (deg minutes : ℤ) (seconds : ℝ) (direction : Hemisphere) :
    Option ℝ :=
  if 0 ≤ deg ∧ 0 ≤ minutes ∧ minutes ≤ 59 ∧ 0 ≤ seconds ∧ seconds < 60 then
    let dd : ℝ := (deg : ℝ) + (minutes : ℝ) / 60 + seconds / 3600
    some (if direction = Hemisphere.W ∨ direction = Hemisphere.S then -dd else dd)
  else none

/-- The sign `dms_to_dd` applies for a hemisphere letter. -/
def hemiSign (direction : Hemisphere) : ℝ :=
  if direction = Hemisphere.W ∨ direction = Hemisphere.S then -1 else 1

/-- Result record of `lat_lon_to_utm` (the Python 4-tuple). -/
structure UTM where
  zone : ℤ
  letter : Char
  easting : ℝ
  northing : ℝ

/-- The 21-character band-letter table `"CDEFGHJKLMNPQRSTUVWXX"`. -/
def utmLetters : List Char :=
  ['C','D','E','F','G','H','J','K','L','M','N','P','Q','R','S','T','U','V','W','X','X']

/-- List lookup at an integer index, `none` when out of range (a Python string
index raises `IndexError` out of range; negative indices never occur at the
call sites, see `C10_band_letter_lookup_safe`). -/
def listGetI (l : List Char) (i : ℤ) : Option Char :=
  if 0 ≤ i then l.get? i.toNat else none

/-- Zone number computed by `lat_lon_to_utm`, including the Norway/Svalbard
special cases. -/
def utmZone (lat lon : ℝ) : ℤ :=
  let zone := pyInt ((lon + 180) / 6) + 1
  if 56 ≤ lat ∧ lat < 64 ∧ 3 ≤ lon ∧ lon < 12 then 32
  else if 72 ≤ lat ∧ lat < 84 then
    (if 0 ≤ lon ∧ lon < 9 then 31
     else if 9 ≤ lon ∧ lon < 21 then 33
     else if 21 ≤ lon ∧ lon < 33 then 35
     else if 33 ≤ lon ∧ lon < 42 then 37
     else zone)
  else zone

/-- The band-letter table index `int((lat + 80) / 8)`. -/
def utmBandIdx (lat : ℝ) : ℤ := pyInt ((lat + 80) / 8)

/-- The band letter lookup of `lat_lon_to_utm`, with the possibly-failing
table access made explicit. -/
def utmBandLetterOpt (lat : ℝ) : Option Char :=
  if -80 ≤ lat ∧ lat ≤ 84 then listGetI utmLetters (utmBandIdx lat)
  else some 'Z'

/-- Total wrapper used by `lat_lon_to_utm`; the sentinel is never produced
(`C10_band_letter_lookup_safe`). -/
def utmBandLetter (lat : ℝ) : Char := (utmBandLetterOpt lat).getD '!'

/-- `lat_lon_to_utm` from src/main.py: WGS84 transverse Mercator forward
projection. -/
def lat_lon_to_utm (lat lon : ℝ) : UTM :=
  let zone := utmZone lat lon
  let letter := utmBandLetter lat
  let a : ℝ := 6378137.0
  let f : ℝ := 1 / 298.257223563
  let k0 : ℝ := 0.9996
  let e := Real.sqrt (f * (2 - f))
  let e2 := e * e
  let ep2 := e2 / (1 - e2)
  let lon0 := radians (((zone : ℝ) - 1) * 6 - 180 + 3)
  let latRad := radians lat
  let lonRad := radians lon
  let N := a / Real.sqrt (1 - e2 * sin latRad ^ 2)
  let T := tan latRad ^ 2
  let C := ep2 * cos latRad ^ 2
  let A := (lonRad - lon0) * cos latRad
  let M := a * ((1 - e2 / 4 - 3 * e2 ^ 2 / 64 - 5 * e2 ^ 3 / 256) * latRad
      - (3 * e2 / 8 + 3 * e2 ^ 2 / 32 + 45 * e2 ^ 3 / 1024) * sin (2 * latRad)
      + (15 * e2 ^ 2 / 256 + 45 * e2 ^ 3 / 1024) * sin (4 * latRad)
      - (35 * e2 ^ 3 / 3072) * sin (6 * latRad))
  let easting := k0 * N * (A + (1 - T + C) * A ^ 3 / 6
      + (5 - 18 * T + T ^ 2 + 72 * C - 58 * ep2) * A ^ 5 / 120) + 500000
  let northing := k0 * (M + N * tan latRad * (A ^ 2 / 2
      + (5 - T + 9 * C + 4 * C ^ 2) * A ^ 4 / 24
      + (61 - 58 * T + T ^ 2 + 600 * C - 330 * ep2) * A ^ 6 / 720))
  let northing := if lat < 0 then northing + 10000000 else northing
  ⟨zone, letter, easting, northing⟩

/-- The two rotating column alphabets of `lat_lon_to_mgrs`. -/
def mgrsColAlphabets : List (List Char) :=
  [['A','B','C','D','E','F','G','H'], ['J','K','L','M','N','P','Q','R'],
   ['S','T','U','V','W','X','Y','Z'], ['A','B','C','D','E','F','G','H'],
   ['J','K','L','M','N','P','Q','R'], ['S','T','U','V','W','X','Y','Z']]

/-- The row alphabet `"ABCDEFGHJKLMNPQRSTUV"`. -/
def mgrsRowAlphabet : List Char :=
  ['A','B','C','D','E','F','G','H','J','K','L','M','N','P','Q','R','S','T','U','V']

/-- The raw (pre-clamp) MGRS column index `int(easting / 100000) - 1`. -/
def mgrsColIdxRaw (easting : ℝ) : ℤ := pyInt (easting / 100000) - 1

/-- The clamped column index: the two `if` clamps of `lat_lon_to_mgrs`. -/
def mgrsColIdx (easting : ℝ) : ℤ :=
  let colIdx := mgrsColIdxRaw easting
  let colIdx := if colIdx < 0 then 0 else colIdx
  if 7 < colIdx then 7 else colIdx

/-- Intermediate values of `lat_lon_to_mgrs` (the Python function builds the
string from exactly these parts). -/
structure MGRSParts where
  zone : ℤ
  letter : Char
  setNumber : ℤ
  colLetter : Option Char
  rowLetter : Option Char
  e100k : ℤ
  n100k : ℤ

/-- The part computations of `lat_lon_to_mgrs` from src/main.py. -/
def mgrs_parts (lat lon : ℝ) : MGRSParts :=
  let u := lat_lon_to_utm lat lon
  let setNumber0 := u.zone % 6
  let setNumber := if setNumber0 = 0 then 6 else setNumber0
  let colLetter := (if 0 ≤ setNumber - 1 then mgrsColAlphabets.get? (setNumber - 1).toNat
                    else none).bind fun row => listGetI row (mgrsColIdx u.easting)
  let rowIdx := pyInt (u.northing / 100000) % 20
  let rowLetter := listGetI mgrsRowAlphabet (rowIdx % 20)
  let e100k := pyInt (pyMod u.easting 100000)
  let n100k := pyInt (pyMod u.northing 100000)
  ⟨u.zone, u.letter, setNumber, colLetter, rowLetter, e100k, n100k⟩

/-- Zero-padding to five characters, as the Python format `{:05d}`. -/
def pad5 (n : ℤ) : String :=
  let s := toString n
  if 5 ≤ s.length then s else String.mk (List.replicate (5 - s.length) '0') ++ s

/-- `lat_lon_to_mgrs` from src/main.py, rendering the parts as the Python
f-string does (missing letters rendered as a sentinel, never produced). -/
def lat_lon_to_mgrs (lat lon : ℝ) : String :=
  let p := mgrs_parts lat lon
  toString p.zone ++ String.singleton p.letter ++ " "
    ++ String.singleton (p.colLetter.getD '!') ++ String.singleton (p.rowLetter.getD '!')
    ++ " " ++ pad5 p.e100k ++ " " ++ pad5 p.n100k

/-- A direction-finding station; only the four fields the engine reads. -/
structure Station where
  lat : ℝ
  lon : ℝ
  azimuth : ℝ
  visible : Bool

/-- `calc_endpoint_haversine` from src/main.py: great-circle projection of an
endpoint at a distance along an azimuth (spherical Earth, R = 6371 km); the
Python local variables lat1, lon1, brng, lat2 are inlined. -/
def calc_endpoint_haversine (lat lon azimuth dist_km : ℝ) : ℝ × ℝ :=
  (degrees (arcsin (sin (radians lat) * cos (dist_km / 6371.0)
      + cos (radians lat) * sin (dist_km / 6371.0) * cos (radians azimuth))),
   degrees (radians lon
      + atan2 (sin (radians azimuth) * sin (dist_km / 6371.0) * cos (radians lat))
        (cos (dist_km / 6371.0) - sin (radians lat)
          * sin (arcsin (sin (radians lat) * cos (dist_km / 6371.0)
              + cos (radians lat) * sin (dist_km / 6371.0) * cos (radians azimuth))))))

/-- `line_intersection` from src/main.py: planar intersection of the two
(infinite) lines through `p1,p2` and `p3,p4`, `none` for near-parallel; the
Python locals `denom` and `t` are inlined. -/
def line_intersection (p1 p2 p3 p4 : ℝ × ℝ) : Option (ℝ × ℝ) :=
  if |(p1.1 - p2.1) * (p3.2 - p4.2) - (p1.2 - p2.2) * (p3.1 - p4.1)| < 1e-10 then none
  else
    some (p1.1 + ((p1.1 - p3.1) * (p3.2 - p4.2) - (p1.2 - p3.2) * (p3.1 - p4.1))
        / ((p1.1 - p2.1) * (p3.2 - p4.2) - (p1.2 - p2.2) * (p3.1 - p4.1)) * (p2.1 - p1.1),
      p1.2 + ((p1.1 - p3.1) * (p3.2 - p4.2) - (p1.2 - p3.2) * (p3.1 - p4.1))
        / ((p1.1 - p2.1) * (p3.2 - p4.2) - (p1.2 - p2.2) * (p3.1 - p4.1)) * (p2.2 - p1.2))

/-- The wrap normalization applied to each angle difference in
`calculate_all_intersections`: `diff = abs(dir - azimuth)`, then
`if diff > pi: diff = 2*pi - diff`. -/
def wrapDiff (d : ℝ) : ℝ := if π < |d| then 2 * π - |d| else |d|

/-- The per-pair body of the double loop of `calculate_all_intersections`:
endpoints, planar intersection, the directionality filter and the lat/lon
range filter.  Returns the accepted `(lat, lon)` point or `none`. -/
def intersectPair (s1 s2 : Station) (azimuthLengthKm : ℝ) : Option (ℝ × ℝ) :=
  match line_intersection (s1.lon, s1.lat)
      ((calc_endpoint_haversine s1.lat s1.lon s1.azimuth azimuthLengthKm).2,
       (calc_endpoint_haversine s1.lat s1.lon s1.azimuth azimuthLengthKm).1)
      (s2.lon, s2.lat)
      ((calc_endpoint_haversine s2.lat s2.lon s2.azimuth azimuthLengthKm).2,
       (calc_endpoint_haversine s2.lat s2.lon s2.azimuth azimuthLengthKm).1) with
  | none => none
  | some inter =>
    if wrapDiff (atan2 (inter.1 - s1.lon) (inter.2 - s1.lat) - radians s1.azimuth) < π / 2
        ∧ wrapDiff (atan2 (inter.1 - s2.lon) (inter.2 - s2.lat) - radians s2.azimuth) < π / 2 then
      if -90 ≤ inter.2 ∧ inter.2 ≤ 90 ∧ -180 ≤ inter.1 ∧ inter.1 ≤ 180 then
        some (inter.2, inter.1)
      else none
    else none

/-- The ordered pairs `(i, j)`, `i < j`, visited by a nested double loop. -/
def orderedPairs {α : Type} : List α → List (α × α)
  | [] => []
  | x :: xs => (xs.map fun y => (x, y)) ++ orderedPairs xs

/-- `calculate_all_intersections` from src/main.py. -/
def calculate_all_intersections (stations : List Station) (azimuthLengthKm : ℝ) :
    List (ℝ × ℝ) :=
  (orderedPairs stations).filterMap fun p => intersectPair p.1 p.2 azimuthLengthKm

/-- `distance_km` from src/main.py: the equirectangular distance metric. -/
def distance_km (lat1 lon1 lat2 lon2 : ℝ) : ℝ :=
  Real.sqrt (((lat2 - lat1) * 111.0) ^ 2
    + ((lon2 - lon1) * 111.0 * cos (radians ((lat1 + lat2) / 2))) ^ 2)

/-- Diameter-pair scan step of `smallest_enclosing_circle` (state: current
maximal distance and its pair). -/
def secDiamStep (acc : ℝ × (ℝ × ℝ) × (ℝ × ℝ)) (pq : (ℝ × ℝ) × (ℝ × ℝ)) :
    ℝ × (ℝ × ℝ) × (ℝ × ℝ) :=
  let d := distance_km pq.1.1 pq.1.2 pq.2.1 pq.2.2
  if acc.1 < d then (d, pq.1, pq.2) else acc

/-- Growth-sweep step of `smallest_enclosing_circle` (state: center and
radius); for a point outside, the center moves partway toward it. -/
def secSweepStep (acc : ℝ × ℝ × ℝ) (p : ℝ × ℝ) : ℝ × ℝ × ℝ :=
  let clat := acc.1; let clon := acc.2.1; let r := acc.2.2
  let d := distance_km clat clon p.1 p.2
  if r < d then
    let newRadius := (r + d) / 2
    let shift := if 0 < d then (newRadius - r) / d else 0
    (clat + shift * (p.1 - clat), clon + shift * (p.2 - clon), newRadius)
  else acc

/-- Final verification-pass step of `smallest_enclosing_circle` (state: the
radius; the center is fixed). -/
def secVerifyStep (clat clon : ℝ) (r : ℝ) (p : ℝ × ℝ) : ℝ :=
  if r < distance_km clat clon p.1 p.2 then distance_km clat clon p.1 p.2 else r

/-- `smallest_enclosing_circle` from src/main.py: returns
`(center_lat, center_lon, radius_km)`. -/
def smallest_enclosing_circle : List (ℝ × ℝ) → ℝ × ℝ × ℝ
  | [] => (0, 0, 0)
  | [p] => (p.1, p.2, 0.5)
  | [p1, p2] =>
    ((p1.1 + p2.1) / 2, (p1.2 + p2.2) / 2,
      max (distance_km ((p1.1 + p2.1) / 2) ((p1.2 + p2.2) / 2) p1.1 p1.2) 0.5)
  | p1 :: p2 :: p3 :: rest =>
    let points := p1 :: p2 :: p3 :: rest
    let dp := (orderedPairs points).foldl secDiamStep (0, p1, p2)
    let centerLat := (dp.2.1.1 + dp.2.2.1) / 2
    let centerLon := (dp.2.1.2 + dp.2.2.2) / 2
    let radius := dp.1 / 2
    let st := points.foldl secSweepStep (centerLat, centerLon, radius)
    let r2 := points.foldl (secVerifyStep st.1 st.2.1) st.2.2
    (st.1, st.2.1, max r2 0.5)

/-- `calculate_uncertainty_circle` from src/main.py: `none` on the empty list,
otherwise the enclosing circle plus the disc area `π r²`. -/
def calculate_uncertainty_circle (intersections : List (ℝ × ℝ)) :
    Option (ℝ × ℝ × ℝ × ℝ) :=
  match intersections with
  | [] => none
  | _ =>
    let c := smallest_enclosing_circle intersections
    some (c.1, c.2.1, c.2.2, π * c.2.2 * c.2.2)

/-- The consolidated fix record (spec section 3). -/
structure Fix where
  centerLat : ℝ
  centerLon : ℝ
  radiusKm : ℝ
  surfaceKm2 : ℝ
  sourcePointCount : ℕ

/-- The fix orchestration as inlined in `generate_mission_data`
(src/main.py): filter to visible stations, require at least two, intersect
all pairs, and wrap the uncertainty circle with the intersection count. -/
def computeFix (stations : List Station) (azimuthLengthKm : ℝ) : Option Fix :=
  if 2 ≤ (stations.filter fun s => s.visible).length then
    match calculate_uncertainty_circle (calculate_all_intersections
        (stations.filter fun s => s.visible) azimuthLengthKm) with
    | none => none
    | some c => some ⟨c.1, c.2.1, c.2.2.1, c.2.2.2,
        (calculate_all_intersections (stations.filter fun s => s.visible)
          azimuthLengthKm).length⟩
  else none

/-- Spec model of the angular deviation of claim C1: the absolute difference
of two angles wrap-normalized into `[0, π]`. -/
def angleDeviation (a b : ℝ) : ℝ :=
  let d := pyMod (a - b) (2 * π)
  if π < d then 2 * π - d else d

/- ------------------------------------------------------------------ -/
/- General lemmas about the Python primitives.                        -/
/- ------------------------------------------------------------------ -/

theorem pyInt_of_nonneg {x : ℝ} (h : 0 ≤ x) : pyInt x = ⌊x⌋ := if_pos h

theorem roundHalfEven_abs_sub (x : ℝ) : |(roundHalfEven x : ℝ) - x| ≤ 1 / 2 := by
  unfold roundHalfEven
  split
  · rename_i htie
    have hx : x = (⌊x⌋ : ℝ) + 1 / 2 := by
      have : Int.fract x = x - ⌊x⌋ := rfl
      rw [this] at htie; linarith
    rcases Int.even_or_odd ⌊x⌋ with ⟨m, hm⟩ | ⟨m, hm⟩
    · have hx2 : x / 2 = (m : ℝ) + 1 / 4 := by
        rw [hx, hm]; push_cast; ring
      have hr : round (x / 2) = m := by
        rw [hx2, round_eq, Int.floor_eq_iff]
        constructor <;> push_cast <;> linarith
      rw [hr, hx, hm]
      push_cast
      rw [abs_le]
      constructor <;> linarith
    · have hx2 : x / 2 = (m : ℝ) + 3 / 4 := by
        rw [hx, hm]; push_cast; ring
      have hr : round (x / 2) = m + 1 := by
        rw [hx2, round_eq, Int.floor_eq_iff]
        constructor <;> push_cast <;> linarith
      rw [hr, hx, hm]
      push_cast
      rw [abs_le]
      constructor <;> linarith
  · have := abs_sub_round x
    rw [abs_sub_comm] at this
    exact this

theorem pyRound_abs_sub (x : ℝ) (n : ℕ) :
    |pyRound x n - x| ≤ 1 / (2 * 10 ^ n) := by
  unfold pyRound
  have h10 : (0 : ℝ) < 10 ^ n := by positivity
  have key := roundHalfEven_abs_sub (x * 10 ^ n)
  have : (roundHalfEven (x * 10 ^ n) : ℝ) / 10 ^ n - x
      = ((roundHalfEven (x * 10 ^ n) : ℝ) - x * 10 ^ n) / 10 ^ n := by
    field_simp
    ring
  rw [this, abs_div, abs_of_pos h10, div_le_div_iff h10 (by positivity)]
  calc |(roundHalfEven (x * 10 ^ n) : ℝ) - x * 10 ^ n| * (2 * 10 ^ n)
      ≤ (1 / 2) * (2 * 10 ^ n) := by
        apply mul_le_mul_of_nonneg_right key (by positivity)
    _ = 1 * 10 ^ n := by ring

/- ------------------------------------------------------------------ -/
/- Claim C10: the band-letter table lookup is always in bounds.       -/
/- ------------------------------------------------------------------ -/

/-- Claim C10: for every latitude in [-80, 84] the band-letter index
`int((lat+80)/8)` lies in [0, 20], so the lookup in the 21-character table
(with its doubled final X) succeeds; latitude 84 yields X, and any latitude
outside [-80, 84] yields Z without touching the table. -/
theorem C10_band_letter_lookup_safe (lat : ℝ) :
    (-80 ≤ lat ∧ lat ≤ 84 →
      0 ≤ utmBandIdx lat ∧ utmBandIdx lat ≤ 20 ∧ (utmBandLetterOpt lat).isSome) ∧
    utmBandLetterOpt 84 = some 'X' ∧
    (¬(-80 ≤ lat ∧ lat ≤ 84) → utmBandLetterOpt lat = some 'Z') := by
  refine ⟨?_, ?_, ?_⟩
  · rintro ⟨h1, h2⟩
    have harg : (0 : ℝ) ≤ (lat + 80) / 8 := by linarith
    have hidx : utmBandIdx lat = ⌊(lat + 80) / 8⌋ := pyInt_of_nonneg harg
    have hlo : 0 ≤ utmBandIdx lat := by
      rw [hidx]; exact Int.floor_nonneg.mpr harg
    have hhi : utmBandIdx lat ≤ 20 := by
      rw [hidx]
      have : (lat + 80) / 8 < 21 := by linarith
      exact Int.lt_add_one_iff.mp (Int.floor_lt.mpr (by exact_mod_cast this))
    refine ⟨hlo, hhi, ?_⟩
    have hsome : (listGetI utmLetters (utmBandIdx lat)).isSome := by
      unfold listGetI
      rw [if_pos hlo]
      have hlen : (utmBandIdx lat).toNat < utmLetters.length := by
        have : (utmBandIdx lat).toNat ≤ 20 := by omega
        simpa [utmLetters] using Nat.lt_succ_of_le this
      rw [List.get?_eq_get hlen]
      rfl
    unfold utmBandLetterOpt
    rw [if_pos ⟨h1, h2⟩]
    exact hsome
  · unfold utmBandLetterOpt
    rw [if_pos (by norm_num)]
    have hidx : utmBandIdx 84 = 20 := by
      unfold utmBandIdx
      rw [pyInt_of_nonneg (by norm_num)]
      have : ((84 : ℝ) + 80) / 8 = 20.5 := by norm_num
      rw [this, Int.floor_eq_iff]
      norm_num
    rw [hidx]
    rfl
  · intro h
    unfold utmBandLetterOpt
    rw [if_neg h]

theorem C10_witness :
    (0 ≤ utmBandIdx 84 ∧ utmBandIdx 84 ≤ 20 ∧ (utmBandLetterOpt 84).isSome) ∧
    utmBandLetterOpt 100 = some 'Z' :=
  ⟨(C10_band_letter_lookup_safe 84).1 (by norm_num),
   (C10_band_letter_lookup_safe 100).2.2 (by norm_num)⟩

/- ------------------------------------------------------------------ -/
/- Claim C9: bearings act modulo 360 in the great-circle projection.  -/
/- ------------------------------------------------------------------ -/

/-- Claim C9: the great-circle projection treats the bearing modulo 360:
reducing the bearing by `b mod 360` (Python float modulo) never changes the
projected endpoint, for every origin, bearing and distance; the function is
total, so no in-range input is rejected. -/
theorem C9_bearing_mod_360 (lat lon b d : ℝ) :
    calc_endpoint_haversine lat lon (pyMod b 360) d
      = calc_endpoint_haversine lat lon b d := by
  have hb : radians (pyMod b 360) = radians b - (⌊b / 360⌋ : ℤ) * (2 * π) := by
    unfold pyMod radians
    push_cast
    ring
  simp only [calc_endpoint_haversine, hb, Real.sin_sub_int_mul_two_pi,
    Real.cos_sub_int_mul_two_pi]

/- ------------------------------------------------------------------ -/
/- Claim C2: containment of the enclosing circle.                     -/
/- ------------------------------------------------------------------ -/

theorem distance_km_nonneg (lat1 lon1 lat2 lon2 : ℝ) :
    0 ≤ distance_km lat1 lon1 lat2 lon2 := Real.sqrt_nonneg _

theorem distance_km_self (lat lon : ℝ) : distance_km lat lon lat lon = 0 := by
  unfold distance_km
  simp

theorem secVerify_le_foldl (clat clon : ℝ) (l : List (ℝ × ℝ)) (r0 : ℝ) :
    r0 ≤ l.foldl (secVerifyStep clat clon) r0 := by
  induction l generalizing r0 with
  | nil => exact le_refl r0
  | cons q l ih =>
    refine le_trans ?_ (ih (secVerifyStep clat clon r0 q))
    unfold secVerifyStep
    split
    · exact le_of_lt (by assumption)
    · exact le_refl r0

theorem dist_le_foldl_verify (clat clon : ℝ) (l : List (ℝ × ℝ)) (r0 : ℝ)
    (p : ℝ × ℝ) (hp : p ∈ l) :
    distance_km clat clon p.1 p.2 ≤ l.foldl (secVerifyStep clat clon) r0 := by
  induction l generalizing r0 with
  | nil => cases hp
  | cons q l ih =>
    rcases List.mem_cons.mp hp with h | h
    · subst h
      refine le_trans ?_ (secVerify_le_foldl clat clon l (secVerifyStep clat clon r0 p))
      unfold secVerifyStep
      split
      · exact le_refl _
      · exact le_of_not_lt (by assumption)
    · exact ih _ h

/-- Claim C2 (amended): every input point is within the returned radius of
the returned center of `smallest_enclosing_circle` (with no epsilon at all)
whenever the list does not have exactly two elements; in the two-point branch
this is guaranteed only for the first point, whose distance defines the
radius.  (The second point of a two-point list can exceed the radius by an
arbitrary amount, see `C2_counterexample`.) -/
theorem C2_enclosing_containment (points : List (ℝ × ℝ)) (p : ℝ × ℝ)
    (hp : p ∈ points) (h2 : ∀ q1 q2, points = [q1, q2] → p = q1) :
    distance_km (smallest_enclosing_circle points).1
        (smallest_enclosing_circle points).2.1 p.1 p.2
      ≤ (smallest_enclosing_circle points).2.2 := by
  match points, hp with
  | [q], hp =>
    have hpq : p = q := by simpa using hp
    subst hpq
    simp only [smallest_enclosing_circle]
    rw [distance_km_self]
    norm_num
  | [q1, q2], hp =>
    have hpq : p = q1 := h2 q1 q2 rfl
    subst hpq
    simp only [smallest_enclosing_circle]
    exact le_max_left _ _
  | q1 :: q2 :: q3 :: rest, hp =>
    simp only [smallest_enclosing_circle]
    refine le_trans (dist_le_foldl_verify _ _ (q1 :: q2 :: q3 :: rest) _ p hp)
      (le_max_left _ _)

theorem C2_enclosing_containment_witness :
    distance_km (smallest_enclosing_circle [((0 : ℝ), 0), (1, 0), (0, 1)]).1
        (smallest_enclosing_circle [((0 : ℝ), 0), (1, 0), (0, 1)]).2.1 1 0
      ≤ (smallest_enclosing_circle [((0 : ℝ), 0), (1, 0), (0, 1)]).2.2 :=
  C2_enclosing_containment [((0 : ℝ), 0), (1, 0), (0, 1)] ((1 : ℝ), (0 : ℝ))
    (by simp) (by intro q1 q2 h; simp at h)

/-- Claim C2 fails as stated: for the two-point list [(90,40), (-30,0)] the
second input point lies more than 100 km outside the returned circle, because
the equirectangular metric is evaluated with different mean-latitude cosine
factors for the two points. -/
theorem C2_counterexample :
    (smallest_enclosing_circle [((90 : ℝ), 40), (-30, 0)]).2.2 + 100
      < distance_km (smallest_enclosing_circle [((90 : ℝ), 40), (-30, 0)]).1
          (smallest_enclosing_circle [((90 : ℝ), 40), (-30, 0)]).2.1 (-30) 0 := by
  have hd1 : distance_km 30 20 90 40 = Real.sqrt 45587700 := by
    unfold distance_km
    have hm : radians ((30 + 90) / 2) = π / 3 := by unfold radians; ring
    rw [hm, Real.cos_pi_div_three]
    norm_num
  have hd2 : distance_km 30 20 (-30) 0 = Real.sqrt 49284000 := by
    unfold distance_km
    have hm : radians ((30 + -30) / 2) = 0 := by unfold radians; ring
    rw [hm, Real.cos_zero]
    norm_num
  have hsec : smallest_enclosing_circle [((90 : ℝ), 40), (-30, 0)]
      = ((30 : ℝ), (20 : ℝ), max (Real.sqrt 45587700) 0.5) := by
    show (((90 : ℝ) + -30) / 2, ((40 : ℝ) + 0) / 2,
        max (distance_km (((90 : ℝ) + -30) / 2) (((40 : ℝ) + 0) / 2) 90 40) 0.5) = _
    rw [show ((90 : ℝ) + -30) / 2 = 30 by norm_num,
      show ((40 : ℝ) + 0) / 2 = 20 by norm_num, hd1]
  rw [hsec]
  dsimp only
  rw [hd2]
  have h1 : Real.sqrt 45587700 < 6800 := by
    nlinarith [Real.sq_sqrt (show (0 : ℝ) ≤ 45587700 by norm_num),
      Real.sqrt_nonneg (45587700 : ℝ)]
  have h2 : (6900 : ℝ) < Real.sqrt 49284000 := by
    nlinarith [Real.sq_sqrt (show (0 : ℝ) ≤ 49284000 by norm_num),
      Real.sqrt_nonneg (49284000 : ℝ)]
  have hmax : max (Real.sqrt 45587700) 0.5 < 6800 :=
    max_lt h1 (by norm_num)
  linarith

/- ------------------------------------------------------------------ -/
/- Claim C4: DMS round-trip within 1e-4 degrees.                      -/
/- ------------------------------------------------------------------ -/

theorem dms_decompose_close (d : ℝ) (hd : 0 ≤ d) :
    |((pyInt d : ℝ) + (pyInt ((d - (pyInt d : ℝ)) * 60) : ℝ) / 60
        + pyRound ((d - (pyInt d : ℝ) - (pyInt ((d - (pyInt d : ℝ)) * 60) : ℝ) / 60) * 3600) 2
          / 3600) - d|
      ≤ 1 / 720000 := by
  rw [pyInt_of_nonneg hd]
  have hf0 : (0 : ℝ) ≤ d - ⌊d⌋ := by
    have := Int.floor_le d
    linarith
  have hm0 : (0 : ℝ) ≤ (d - (⌊d⌋ : ℝ)) * 60 := by linarith
  rw [pyInt_of_nonneg hm0]
  set f := d - (⌊d⌋ : ℝ) with hfdef
  set m := ⌊f * 60⌋ with hmdef
  have hmle : (m : ℝ) ≤ f * 60 := Int.floor_le _
  have hmgt : f * 60 < (m : ℝ) + 1 := Int.lt_floor_add_one _
  have hround := pyRound_abs_sub ((d - (⌊d⌋ : ℝ) - (m : ℝ) / 60) * 3600) 2
  rw [← hfdef] at hround
  rw [abs_le] at hround ⊢
  have h102 : ((10 : ℝ) ^ 2) = 100 := by norm_num
  rw [h102] at hround
  have hdf : d = (⌊d⌋ : ℝ) + f := by rw [hfdef]; ring
  constructor <;> [linarith [hround.1]; linarith [hround.2]]

/-- Claim C4: converting any decimal-degree value to DMS with `dd_to_dms` and
back with `dms_to_dd` reproduces it to within 1e-4 degrees (in fact within
2e-6: half a hundredth of an arc second plus half of the final 1e-6
rounding); in particular this holds on the valid range of either axis. -/
theorem C4_dms_roundtrip (dd : ℝ) (axis : CoordType) :
    |dms_to_dd (dd_to_dms dd axis).1 (dd_to_dms dd axis).2.1
        (dd_to_dms dd axis).2.2.1 (dd_to_dms dd axis).2.2.2 - dd| ≤ 1e-4 := by
  have habs : (0 : ℝ) ≤ |dd| := abs_nonneg dd
  have hcore := dms_decompose_close |dd| habs
  by_cases hdd : 0 ≤ dd
  · have hdir : (dd_to_dms dd axis).2.2.2 = Hemisphere.N ∨
        (dd_to_dms dd axis).2.2.2 = Hemisphere.E := by
      unfold dd_to_dms
      cases axis <;> simp [hdd]
    have hparts : (dd_to_dms dd axis).1 = pyInt |dd| ∧
        (dd_to_dms dd axis).2.1 = pyInt ((|dd| - (pyInt |dd| : ℝ)) * 60) ∧
        (dd_to_dms dd axis).2.2.1
          = pyRound ((|dd| - (pyInt |dd| : ℝ)
              - (pyInt ((|dd| - (pyInt |dd| : ℝ)) * 60) : ℝ) / 60) * 3600) 2 := by
      unfold dd_to_dms
      cases axis <;> exact ⟨rfl, rfl, rfl⟩
    have habsdd : |dd| = dd := abs_of_nonneg hdd
    rcases hdir with hdir | hdir <;>
    · rw [hparts.1, hparts.2.1, hparts.2.2, hdir]
      unfold dms_to_dd
      rw [if_neg (by simp)]
      have hfin := pyRound_abs_sub ((pyInt |dd| : ℝ)
          + (pyInt ((|dd| - (pyInt |dd| : ℝ)) * 60) : ℝ) / 60
          + pyRound ((|dd| - (pyInt |dd| : ℝ)
              - (pyInt ((|dd| - (pyInt |dd| : ℝ)) * 60) : ℝ) / 60) * 3600) 2 / 3600) 6
      rw [abs_le] at hcore hfin ⊢
      have h106 : ((10 : ℝ) ^ 6) = 1000000 := by norm_num
      rw [h106] at hfin
      constructor <;> linarith [hfin.1, hfin.2, hcore.1, hcore.2, habsdd]
  · have hdir : (dd_to_dms dd axis).2.2.2 = Hemisphere.S ∨
        (dd_to_dms dd axis).2.2.2 = Hemisphere.W := by
      unfold dd_to_dms
      cases axis <;> simp [hdd]
    have hparts : (dd_to_dms dd axis).1 = pyInt |dd| ∧
        (dd_to_dms dd axis).2.1 = pyInt ((|dd| - (pyInt |dd| : ℝ)) * 60) ∧
        (dd_to_dms dd axis).2.2.1
          = pyRound ((|dd| - (pyInt |dd| : ℝ)
              - (pyInt ((|dd| - (pyInt |dd| : ℝ)) * 60) : ℝ) / 60) * 3600) 2 := by
      unfold dd_to_dms
      cases axis <;> exact ⟨rfl, rfl, rfl⟩
    have habsdd : |dd| = -dd := abs_of_neg (lt_of_not_le hdd)
    rcases hdir with hdir | hdir <;>
    · rw [hparts.1, hparts.2.1, hparts.2.2, hdir]
      unfold dms_to_dd
      rw [if_pos (by simp)]
      have hfin := pyRound_abs_sub (-((pyInt |dd| : ℝ)
          + (pyInt ((|dd| - (pyInt |dd| : ℝ)) * 60) : ℝ) / 60
          + pyRound ((|dd| - (pyInt |dd| : ℝ)
              - (pyInt ((|dd| - (pyInt |dd| : ℝ)) * 60) : ℝ) / 60) * 3600) 2 / 3600)) 6
      rw [abs_le] at hcore hfin ⊢
      have h106 : ((10 : ℝ) ^ 6) = 1000000 := by norm_num
      rw [h106] at hfin
      constructor <;> linarith [hfin.1, hfin.2, hcore.1, hcore.2, habsdd]

/- ------------------------------------------------------------------ -/
/- Claim C6: the dms_to_dd formula and its (absent) validation.       -/
/- ------------------------------------------------------------------ -/

/-- Claim C6 (amended): `dms_to_dd` computes `deg + min/60 + sec/3600`,
negated for S or W, rounded to six decimals (so within 5e-7 of the exact
signed formula), for ALL inputs: it performs no range validation and has no
failure path, out-of-range components included. -/
theorem C6_formula_total (deg minutes : ℤ) (seconds : ℝ) (direction : Hemisphere) :
    |dms_to_dd deg minutes seconds direction
      - hemiSign direction * ((deg : ℝ) + (minutes : ℝ) / 60 + seconds / 3600)| ≤ 5e-7 := by
  unfold dms_to_dd hemiSign
  by_cases hdir : direction = Hemisphere.W ∨ direction = Hemisphere.S
  · rw [if_pos hdir, if_pos hdir]
    have := pyRound_abs_sub (-((deg : ℝ) + (minutes : ℝ) / 60 + seconds / 3600)) 6
    rw [abs_le] at this ⊢
    have h106 : ((10 : ℝ) ^ 6) = 1000000 := by norm_num
    constructor <;> nlinarith [this.1, this.2]
  · rw [if_neg hdir, if_neg hdir]
    have := pyRound_abs_sub ((deg : ℝ) + (minutes : ℝ) / 60 + seconds / 3600) 6
    rw [abs_le] at this ⊢
    have h106 : ((10 : ℝ) ^ 6) = 1000000 := by norm_num
    constructor <;> nlinarith [this.1, this.2]

/-- Claim C6 fails as stated: on the out-of-range input deg = -5 the code
returns the ordinary value -5 instead of failing, while the spec model
`dms_to_dd_spec` rejects the same input with `InvalidInput` (`none`). -/
theorem C6_counterexample :
    dms_to_dd (-5) 0 0 Hemisphere.N = -5
      ∧ dms_to_dd_spec (-5) 0 0 Hemisphere.N = none := by
  constructor
  · unfold dms_to_dd
    rw [if_neg (by simp)]
    unfold pyRound roundHalfEven
    have harg : ((-5 : ℤ) : ℝ) + ((0 : ℤ) : ℝ) / 60 + (0 : ℝ) / 3600 = -5 := by norm_num
    rw [harg]
    have h1 : (-5 : ℝ) * 10 ^ 6 = ((-5000000 : ℤ) : ℝ) := by norm_num
    rw [h1, Int.fract_intCast, if_neg (by norm_num), round_intCast]
    norm_num
  · unfold dms_to_dd_spec
    rw [if_neg (by norm_num)]

/- ------------------------------------------------------------------ -/
/- Claim C8: silent clamping and absence of failure in UTM/MGRS.      -/
/- ------------------------------------------------------------------ -/

theorem pyInt_nonpos_of_lt_one {x : ℝ} (h : x < 1) : pyInt x ≤ 0 := by
  unfold pyInt
  split
  · have : ⌊x⌋ < 1 := Int.floor_lt.mpr (by exact_mod_cast h)
    omega
  · rename_i hx
    have : (0 : ℝ) ≤ -x := by linarith [not_le.mp hx]
    have : 0 ≤ ⌊-x⌋ := Int.floor_nonneg.mpr this
    omega

/-- Claim C8 (amended): besides the band-letter clamp, the MGRS column index
is itself silently clamped into [0, 7] for every easting; with that clamp
every table lookup of the conversion succeeds for every real input, and no
conversion path can fail: nothing raises `InvalidInput`. -/
theorem C8_mgrs_clamped_total (lat lon : ℝ) :
    (0 ≤ mgrsColIdx (lat_lon_to_utm lat lon).easting
      ∧ mgrsColIdx (lat_lon_to_utm lat lon).easting ≤ 7)
    ∧ ((mgrs_parts lat lon).colLetter).isSome
    ∧ ((mgrs_parts lat lon).rowLetter).isSome := by
  have hclamp : ∀ e : ℝ, 0 ≤ mgrsColIdx e ∧ mgrsColIdx e ≤ 7 := by
    intro e
    unfold mgrsColIdx
    dsimp only
    split <;> split <;> omega
  refine ⟨hclamp _, ?_, ?_⟩
  · show ((if 0 ≤ (if (lat_lon_to_utm lat lon).zone % 6 = 0 then 6
        else (lat_lon_to_utm lat lon).zone % 6) - 1 then
          mgrsColAlphabets.get? ((if (lat_lon_to_utm lat lon).zone % 6 = 0 then 6
            else (lat_lon_to_utm lat lon).zone % 6) - 1).toNat
        else none).bind fun row =>
          listGetI row (mgrsColIdx (lat_lon_to_utm lat lon).easting)).isSome
    have hz0 : 0 ≤ (lat_lon_to_utm lat lon).zone % 6 :=
      Int.emod_nonneg _ (by norm_num)
    have hz6 : (lat_lon_to_utm lat lon).zone % 6 < 6 :=
      Int.emod_lt_of_pos _ (by norm_num)
    set s : ℤ := if (lat_lon_to_utm lat lon).zone % 6 = 0 then 6
      else (lat_lon_to_utm lat lon).zone % 6 with hs
    have hs1 : 1 ≤ s ∧ s ≤ 6 := by
      rw [hs]; split <;> omega
    rw [if_pos (by omega)]
    have hlt : (s - 1).toNat < mgrsColAlphabets.length := by
      have : (s - 1).toNat ≤ 5 := by omega
      simpa [mgrsColAlphabets] using Nat.lt_succ_of_le this
    rw [List.get?_eq_get hlt]
    have hrow8 : ∀ r ∈ mgrsColAlphabets, r.length = 8 := by decide
    have hrl : (mgrsColAlphabets.get ⟨(s - 1).toNat, hlt⟩).length = 8 :=
      hrow8 _ (List.get_mem _ _ _)
    show (listGetI _ (mgrsColIdx (lat_lon_to_utm lat lon).easting)).isSome
    unfold listGetI
    rw [if_pos (hclamp _).1]
    have hidx : (mgrsColIdx (lat_lon_to_utm lat lon).easting).toNat
        < (mgrsColAlphabets.get ⟨(s - 1).toNat, hlt⟩).length := by
      rw [hrl]
      have := (hclamp (lat_lon_to_utm lat lon).easting).2
      omega
    rw [List.get?_eq_get hidx]
    rfl
  · show (listGetI mgrsRowAlphabet
        ((pyInt ((lat_lon_to_utm lat lon).northing / 100000) % 20) % 20)).isSome
    have h0 : 0 ≤ (pyInt ((lat_lon_to_utm lat lon).northing / 100000) % 20) % 20 :=
      Int.emod_nonneg _ (by norm_num)
    have h20 : (pyInt ((lat_lon_to_utm lat lon).northing / 100000) % 20) % 20 < 20 :=
      Int.emod_lt_of_pos _ (by norm_num)
    unfold listGetI
    rw [if_pos h0]
    have hlt : ((pyInt ((lat_lon_to_utm lat lon).northing / 100000) % 20) % 20).toNat
        < mgrsRowAlphabet.length := by
      have : ((pyInt ((lat_lon_to_utm lat lon).northing / 100000) % 20) % 20).toNat ≤ 19 := by
        omega
      simpa [mgrsRowAlphabet] using Nat.lt_succ_of_le this
    rw [List.get?_eq_get hlt]
    rfl

theorem utm_equator_minus190_zone : utmZone 0 (-190) = 0 := by
  unfold utmZone
  rw [if_neg (by norm_num), if_neg (by norm_num)]
  have : ((-190 : ℝ) + 180) / 6 = -(10 / 6) := by norm_num
  unfold pyInt
  rw [this, if_neg (by norm_num)]
  rw [show (-(-((10 : ℝ) / 6)) : ℝ) = 10 / 6 by ring]
  rw [show ⌊(10 : ℝ) / 6⌋ = 1 by rw [Int.floor_eq_iff] <;> norm_num]
  ring

theorem utm_equator_minus190_easting : (lat_lon_to_utm 0 (-190)).easting < 100000 := by
  have hr0 : radians 0 = 0 := by unfold radians; ring
  have he2 : Real.sqrt ((1 / 298.257223563) * (2 - 1 / 298.257223563))
      * Real.sqrt ((1 / 298.257223563) * (2 - 1 / 298.257223563))
      = (1 / 298.257223563) * (2 - 1 / 298.257223563) :=
    Real.mul_self_sqrt (by norm_num)
  show 0.9996 * (6378137.0 / Real.sqrt (1 - (Real.sqrt ((1 / 298.257223563)
      * (2 - 1 / 298.257223563)) * Real.sqrt ((1 / 298.257223563)
      * (2 - 1 / 298.257223563))) * sin (radians 0) ^ 2)) * _ + 500000 < 100000
  rw [hr0, Real.sin_zero]
  rw [show ((0 : ℝ) ^ 2) = 0 by norm_num, mul_zero, sub_zero, Real.sqrt_one, div_one]
  rw [he2]
  have hA : radians (-190) - radians ((((utmZone 0 (-190) : ℤ) : ℝ) - 1) * 6 - 180 + 3)
      = -7 * π / 180 := by
    rw [utm_equator_minus190_zone]
    unfold radians
    push_cast
    ring
  rw [Real.cos_zero, Real.tan_zero]
  set e2 : ℝ := (1 / 298.257223563) * (2 - 1 / 298.257223563) with he2def
  set q : ℝ := e2 / (1 - e2) with hq
  have hqpos : 0 < q := by rw [hq, he2def]; norm_num
  have hqlt : q < 0.007 := by rw [hq, he2def]; norm_num
  set A : ℝ := (radians (-190) - radians ((((utmZone 0 (-190) : ℤ) : ℝ) - 1) * 6 - 180 + 3)) * 1
    with hAdef
  have hAval : A = -7 * π / 180 := by rw [hAdef, mul_one]; exact hA
  have hAneg : A < -0.122 := by
    rw [hAval]
    have := Real.pi_gt_3141592
    nlinarith
  have hA0 : A < 0 := by linarith
  have hA3 : A ^ 3 < 0 := Odd.pow_neg (by decide) hA0
  have hA5 : A ^ 5 < 0 := Odd.pow_neg (by decide) hA0
  have hsum : A + (1 - 0 ^ 2 + q * 1 ^ 2) * A ^ 3 / 6
      + (5 - 18 * 0 ^ 2 + (0 ^ 2) ^ 2 + 72 * (q * 1 ^ 2) - 58 * q) * A ^ 5 / 120 < -0.122 := by
    have h3 : (1 - 0 ^ 2 + q * 1 ^ 2) * A ^ 3 ≤ 0 := by nlinarith
    have h5 : (5 - 18 * 0 ^ 2 + (0 ^ 2) ^ 2 + 72 * (q * 1 ^ 2) - 58 * q) * A ^ 5 ≤ 0 := by
      nlinarith
    linarith
  nlinarith [hsum]

/-- Claim C8 fails as stated: the conversions contain a second silent clamp.
At the (invalid) input lat 0, lon -190 the easting is negative, the raw MGRS
column index `int(easting/100000) - 1` is negative, and `lat_lon_to_mgrs`
silently clamps it to 0 and returns the column letter S instead of failing
with `InvalidInput`. -/
theorem C8_counterexample :
    mgrsColIdxRaw (lat_lon_to_utm 0 (-190)).easting < 0
      ∧ (mgrs_parts 0 (-190)).colLetter = some 'S' := by
  have heast := utm_equator_minus190_easting
  have hraw : mgrsColIdxRaw (lat_lon_to_utm 0 (-190)).easting < 0 := by
    unfold mgrsColIdxRaw
    have : (lat_lon_to_utm 0 (-190)).easting / 100000 < 1 := by linarith
    have := pyInt_nonpos_of_lt_one this
    omega
  refine ⟨hraw, ?_⟩
  have hcol : mgrsColIdx (lat_lon_to_utm 0 (-190)).easting = 0 := by
    unfold mgrsColIdx
    dsimp only
    rw [if_pos hraw]
    norm_num
  have hzone : (lat_lon_to_utm 0 (-190)).zone = 0 := utm_equator_minus190_zone
  show ((if 0 ≤ (if (lat_lon_to_utm 0 (-190)).zone % 6 = 0 then 6
      else (lat_lon_to_utm 0 (-190)).zone % 6) - 1 then
        mgrsColAlphabets.get? ((if (lat_lon_to_utm 0 (-190)).zone % 6 = 0 then 6
          else (lat_lon_to_utm 0 (-190)).zone % 6) - 1).toNat
      else none).bind fun row =>
        listGetI row (mgrsColIdx (lat_lon_to_utm 0 (-190)).easting)) = some 'S'
  rw [hzone, hcol]
  norm_num
  rfl

/- ------------------------------------------------------------------ -/
/- atan2 and angle evaluation lemmas.                                 -/
/- ------------------------------------------------------------------ -/

theorem atan2_of_pos_right {y x : ℝ} (hx : 0 < x) : atan2 y x = arctan (y / x) :=
  if_pos hx

theorem atan2_zero_of_pos {x : ℝ} (hx : 0 < x) : atan2 0 x = 0 := by
  rw [atan2_of_pos_right hx, zero_div, Real.arctan_zero]

theorem atan2_of_pos_up {y : ℝ} (hy : 0 < y) : atan2 y 0 = π / 2 := by
  unfold atan2
  rw [if_neg (lt_irrefl 0), if_neg (lt_irrefl 0), if_pos hy]

theorem atan2_zero_of_neg {x : ℝ} (hx : x < 0) : atan2 0 x = π := by
  unfold atan2
  rw [if_neg (by linarith), if_pos hx, if_pos (le_refl 0), zero_div, Real.arctan_zero,
    zero_add]

theorem atan2_of_neg_neg {y x : ℝ} (hy : y < 0) (hx : x < 0) :
    atan2 y x = arctan (y / x) - π := by
  unfold atan2
  rw [if_neg (by linarith), if_pos hx, if_neg (by linarith)]

theorem degrees_radians (x : ℝ) : degrees (radians x) = x := by
  unfold degrees radians
  have : π ≠ 0 := Real.pi_ne_zero
  field_simp

theorem degrees_zero : degrees 0 = 0 := by unfold degrees; ring

theorem wrapDiff_zero : wrapDiff 0 = 0 := by
  unfold wrapDiff
  rw [abs_zero, if_neg (by linarith [Real.pi_pos])]

/- ------------------------------------------------------------------ -/
/- Claim C3: degenerate station counts in the fix orchestration.      -/
/- ------------------------------------------------------------------ -/

/-- Claim C3: with fewer than two visible stations the orchestration returns
no fix; with exactly two visible stations whose bearings validly cross it
returns a fix built from the single intersection, with
`source_point_count = 1` and radius exactly 0.5 km (the floor). -/
theorem C3_computeFix_degenerate (stations : List Station) (len : ℝ) :
    ((stations.filter fun s => s.visible).length ≤ 1 →
      computeFix stations len = none) ∧
    (∀ a b p, (stations.filter fun s => s.visible) = [a, b] →
      intersectPair a b len = some p →
      computeFix stations len = some ⟨p.1, p.2, 0.5, π * 0.5 * 0.5, 1⟩) := by
  constructor
  · intro h
    unfold computeFix
    rw [if_neg (by omega)]
  · intro a b p hfilter hcross
    unfold computeFix
    rw [hfilter]
    rw [if_pos (by norm_num)]
    have hinters : calculate_all_intersections [a, b] len = [p] := by
      unfold calculate_all_intersections orderedPairs orderedPairs orderedPairs
      simp [hcross]
    rw [hinters]
    unfold calculate_uncertainty_circle
    simp only [smallest_enclosing_circle, List.length_cons, List.length_nil]

/-- Station A of the concrete two-station scenario: on the equator at the
origin, pointing due east. -/
def stA : Station := ⟨0, 0, 90, true⟩

/-- Station B of the concrete two-station scenario: at (10, 5), pointing due
south. -/
def stB : Station := ⟨10, 5, 180, true⟩

theorem endpointA_eval :
    calc_endpoint_haversine 0 0 90 100 = (0, degrees (100 / 6371)) := by
  unfold calc_endpoint_haversine
  have hr0 : radians 0 = 0 := by unfold radians; ring
  have hr90 : radians 90 = π / 2 := by unfold radians; ring
  rw [hr0, hr90, Real.sin_zero, Real.cos_zero, Real.cos_pi_div_two, Real.sin_pi_div_two]
  have h1 : (0 : ℝ) * cos (100 / 6371.0) + 1 * sin (100 / 6371.0) * 0 = 0 := by ring
  rw [h1, Real.arcsin_zero, Real.sin_zero, degrees_zero]
  have hd1 : (100 : ℝ) / 6371.0 = 100 / 6371 := by norm_num
  rw [hd1]
  have hcos : 0 < cos ((100 : ℝ) / 6371) := by
    apply Real.cos_pos_of_le_one
    rw [abs_le]
    constructor <;> norm_num
  have h2 : (1 : ℝ) * sin (100 / 6371) * 1 = sin (100 / 6371) := by ring
  have h3 : cos ((100 : ℝ) / 6371) - 0 * 0 = cos (100 / 6371) := by ring
  rw [h2, h3, atan2_of_pos_right hcos, ← Real.tan_eq_sin_div_cos]
  have hpi := Real.pi_gt_three
  rw [Real.arctan_tan (by norm_num; linarith) (by norm_num; linarith)]
  rw [zero_add]

theorem endpointB_eval :
    calc_endpoint_haversine 10 5 180 100 = (degrees (radians 10 - 100 / 6371), 5) := by
  unfold calc_endpoint_haversine
  have hr180 : radians 180 = π := by unfold radians; ring
  rw [hr180, Real.sin_pi, Real.cos_pi]
  have hd1 : (100 : ℝ) / 6371.0 = 100 / 6371 := by norm_num
  rw [hd1]
  have harg : sin (radians 10) * cos ((100 : ℝ) / 6371)
      + cos (radians 10) * sin ((100 : ℝ) / 6371) * (-1)
      = sin (radians 10 - 100 / 6371) := by
    rw [Real.sin_sub]
    ring
  rw [harg]
  have hpi3 := Real.pi_gt_three
  have hpi4 := Real.pi_lt_four
  have hr10 : radians 10 = 10 * (π / 180) := rfl
  have hr10lo : (1 : ℝ) / 6 < radians 10 := by rw [hr10]; nlinarith
  have hr10hi : radians 10 < (1 : ℝ) / 4 := by rw [hr10]; nlinarith
  have hbound1 : -(π / 2) ≤ radians 10 - 100 / 6371 := by nlinarith
  have hbound2 : radians 10 - 100 / 6371 ≤ π / 2 := by nlinarith
  rw [Real.arcsin_sin hbound1 hbound2]
  have hy : (0 : ℝ) * sin (100 / 6371) * cos (radians 10) = 0 := by ring
  rw [hy]
  have hcosd : cos ((100 : ℝ) / 6371)
      = cos (radians 10) * cos (radians 10 - 100 / 6371)
        + sin (radians 10) * sin (radians 10 - 100 / 6371) := by
    have := Real.cos_sub (radians 10) (radians 10 - 100 / 6371)
    have harg2 : radians 10 - (radians 10 - 100 / 6371) = (100 : ℝ) / 6371 := by ring
    rw [harg2] at this
    linarith
  have hcos10 : 0 < cos (radians 10) := by
    apply Real.cos_pos_of_le_one
    rw [abs_le]
    constructor <;> nlinarith
  have hcosdiff : 0 < cos (radians 10 - 100 / 6371) := by
    apply Real.cos_pos_of_le_one
    rw [abs_le]
    constructor <;> nlinarith
  have hxpos : 0 < cos ((100 : ℝ) / 6371)
      - sin (radians 10) * sin (radians 10 - 100 / 6371) := by
    rw [hcosd]
    have : cos (radians 10) * cos (radians 10 - 100 / 6371)
        + sin (radians 10) * sin (radians 10 - 100 / 6371)
        - sin (radians 10) * sin (radians 10 - 100 / 6371)
        = cos (radians 10) * cos (radians 10 - 100 / 6371) := by ring
    rw [this]
    positivity
  rw [atan2_zero_of_pos hxpos, add_zero, degrees_radians]

theorem lineAB_eval :
    line_intersection ((0 : ℝ), 0) (degrees (100 / 6371), 0)
      ((5 : ℝ), 10) ((5 : ℝ), degrees (radians 10 - 100 / 6371)) = some (5, 0) := by
  have hpi2 := Real.pi_lt_315
  have hpipos := Real.pi_pos
  have hE : degrees ((100 : ℝ) / 6371) = 18000 / (6371 * π) := by
    unfold degrees
    field_simp
    ring
  have hEpos : (0.8 : ℝ) < degrees (100 / 6371) := by
    rw [hE, lt_div_iff (by positivity)]
    nlinarith
  have hD : degrees (radians 10 - 100 / 6371) = 10 - degrees (100 / 6371) := by
    unfold degrees radians
    field_simp
    ring
  unfold line_intersection
  rw [hD]
  have hdenom : ((0 : ℝ) - degrees (100 / 6371)) * (10 - (10 - degrees (100 / 6371)))
      - ((0 : ℝ) - 0) * ((5 : ℝ) - 5)
      = -(degrees (100 / 6371) * degrees (100 / 6371)) := by ring
  have hQ : ((0 : ℝ) - degrees (100 / 6371)) * (10 - (10 - degrees (100 / 6371)))
      - ((0 : ℝ) - 0) * ((5 : ℝ) - 5) ≠ 0 := by
    rw [hdenom]
    have : (0.64 : ℝ) < degrees (100 / 6371) * degrees (100 / 6371) := by nlinarith
    intro hcontra
    nlinarith
  rw [if_neg (by rw [hdenom]; rw [abs_neg, abs_of_pos (by nlinarith)]; nlinarith)]
  congr 1
  rw [Prod.ext_iff]
  constructor
  · dsimp only
    rw [zero_add, div_mul_eq_mul_div, div_eq_iff (by rw [hdenom]; nlinarith)]
    ring
  · dsimp only
    ring

theorem intersectAB_eval : intersectPair stA stB 100 = some (0, 5) := by
  have hd1 : atan2 ((5 : ℝ) - stA.lon) ((0 : ℝ) - stA.lat) - radians stA.azimuth = 0 := by
    show atan2 ((5 : ℝ) - 0) ((0 : ℝ) - 0) - radians 90 = 0
    have hr90 : radians 90 = π / 2 := by unfold radians; ring
    rw [show (5 : ℝ) - 0 = 5 by ring, show (0 : ℝ) - 0 = 0 by ring,
      atan2_of_pos_up (by norm_num), hr90, sub_self]
  have hd2 : atan2 ((5 : ℝ) - stB.lon) ((0 : ℝ) - stB.lat) - radians stB.azimuth = 0 := by
    show atan2 ((5 : ℝ) - 5) ((0 : ℝ) - 10) - radians 180 = 0
    have hr180 : radians 180 = π := by unfold radians; ring
    rw [show (5 : ℝ) - 5 = 0 by ring, atan2_zero_of_neg (by norm_num), hr180, sub_self]
  unfold intersectPair
  rw [show calc_endpoint_haversine stA.lat stA.lon stA.azimuth 100
      = (0, degrees (100 / 6371)) from endpointA_eval,
    show calc_endpoint_haversine stB.lat stB.lon stB.azimuth 100
      = (degrees (radians 10 - 100 / 6371), 5) from endpointB_eval]
  rw [show line_intersection (stA.lon, stA.lat) ((0, degrees (100 / 6371)).2,
      ((0 : ℝ), degrees (100 / 6371)).1) (stB.lon, stB.lat)
      ((degrees (radians 10 - 100 / 6371), 5).2, (degrees (radians 10 - 100 / 6371), (5 : ℝ)).1)
      = some (5, 0) from lineAB_eval]
  show (if wrapDiff (atan2 ((5 : ℝ) - stA.lon) ((0 : ℝ) - stA.lat) - radians stA.azimuth) < π / 2
      ∧ wrapDiff (atan2 ((5 : ℝ) - stB.lon) ((0 : ℝ) - stB.lat) - radians stB.azimuth) < π / 2 then
    if (-90 : ℝ) ≤ 0 ∧ (0 : ℝ) ≤ 90 ∧ (-180 : ℝ) ≤ 5 ∧ (5 : ℝ) ≤ 180 then
      some ((0 : ℝ), (5 : ℝ))
    else none
  else none) = some (0, 5)
  rw [hd1, hd2, wrapDiff_zero]
  rw [if_pos ⟨by linarith [Real.pi_pos], by linarith [Real.pi_pos]⟩]
  rw [if_pos (by norm_num)]

theorem C3_witness :
    computeFix [stA] 100 = none
      ∧ computeFix [stA, stB] 100 = some ⟨0, 5, 0.5, π * 0.5 * 0.5, 1⟩ :=
  ⟨(C3_computeFix_degenerate [stA] 100).1 (by simp [stA]),
   (C3_computeFix_degenerate [stA, stB] 100).2 stA stB (0, 5) (by simp [stA, stB])
     intersectAB_eval⟩

/- ------------------------------------------------------------------ -/
/- Claim C5: dependence of the intersection on the projection length. -/
/- ------------------------------------------------------------------ -/

theorem atan2_of_nonneg_neg {y x : ℝ} (hy : 0 ≤ y) (hx : x < 0) :
    atan2 y x = arctan (y / x) + π := by
  unfold atan2
  rw [if_neg (by linarith), if_pos hx, if_pos hy]

/-- Station of the distance-dependence scenario at (45, 0) pointing east. -/
def stC : Station := ⟨45, 0, 90, true⟩

/-- Station of the distance-dependence scenario at (50, 5) pointing south. -/
def stD : Station := ⟨50, 5, 180, true⟩

/-- Endpoint of an eastward great-circle chord from latitude 45: it bends
southward in the plate carree chart, by an amount depending on the
distance. -/
theorem endpoint_east45_eval (d : ℝ) (h0 : 0 < d / 6371) (h2 : d / 6371 < π / 2) :
    calc_endpoint_haversine 45 0 90 d
      = (degrees (arcsin (Real.sqrt 2 / 2 * cos (d / 6371))),
         degrees (arctan (Real.sqrt 2 * tan (d / 6371)))) := by
  unfold calc_endpoint_haversine
  have h6371 : (6371.0 : ℝ) = 6371 := by norm_num
  rw [h6371]
  have hr0 : radians 0 = 0 := by unfold radians; ring
  have hr45 : radians 45 = π / 4 := by unfold radians; ring
  have hr90 : radians 90 = π / 2 := by unfold radians; ring
  rw [hr0, hr45, hr90, Real.sin_pi_div_four, Real.cos_pi_div_four, Real.cos_pi_div_two,
    Real.sin_pi_div_two]
  have hs2 : Real.sqrt 2 * Real.sqrt 2 = 2 := Real.mul_self_sqrt (by norm_num)
  have hs2pos : 0 < Real.sqrt 2 := Real.sqrt_pos.mpr (by norm_num)
  have hs2lt : Real.sqrt 2 < 1.5 := by nlinarith
  have harg : Real.sqrt 2 / 2 * cos (d / 6371) + Real.sqrt 2 / 2 * sin (d / 6371) * 0
      = Real.sqrt 2 / 2 * cos (d / 6371) := by ring
  rw [harg]
  have hcospos : 0 < cos (d / 6371) :=
    Real.cos_pos_of_mem_Ioo ⟨by linarith [Real.pi_pos], h2⟩
  have hcosle : cos (d / 6371) ≤ 1 := Real.cos_le_one _
  have hsinpos : 0 < sin (d / 6371) :=
    Real.sin_pos_of_pos_of_lt_pi h0 (by nlinarith [Real.pi_pos])
  have hsin_arcsin : sin (arcsin (Real.sqrt 2 / 2 * cos (d / 6371)))
      = Real.sqrt 2 / 2 * cos (d / 6371) := by
    apply Real.sin_arcsin <;> nlinarith
  rw [hsin_arcsin]
  have hx : cos (d / 6371) - Real.sqrt 2 / 2 * (Real.sqrt 2 / 2 * cos (d / 6371))
      = cos (d / 6371) / 2 := by
    linear_combination (-(cos (d / 6371)) / 4) * hs2
  rw [hx]
  have hxpos : 0 < cos (d / 6371) / 2 := by linarith
  rw [atan2_of_pos_right hxpos]
  have hdiv : 1 * sin (d / 6371) * (Real.sqrt 2 / 2) / (cos (d / 6371) / 2)
      = Real.sqrt 2 * tan (d / 6371) := by
    rw [Real.tan_eq_sin_div_cos]
    field_simp
    ring
  rw [hdiv, zero_add]

/-- Endpoint of a southward chord: a vertical segment in the chart. -/
theorem endpoint_south_eval (lt ln d : ℝ)
    (h1 : -(π / 2) ≤ radians lt - d / 6371) (h2 : radians lt - d / 6371 ≤ π / 2)
    (h3 : 0 < cos (radians lt)) (h4 : 0 < cos (radians lt - d / 6371)) :
    calc_endpoint_haversine lt ln 180 d = (degrees (radians lt - d / 6371), ln) := by
  unfold calc_endpoint_haversine
  have h6371 : (6371.0 : ℝ) = 6371 := by norm_num
  rw [h6371]
  have hr180 : radians 180 = π := by unfold radians; ring
  rw [hr180, Real.sin_pi, Real.cos_pi]
  have harg : sin (radians lt) * cos (d / 6371) + cos (radians lt) * sin (d / 6371) * (-1)
      = sin (radians lt - d / 6371) := by
    rw [Real.sin_sub]
    ring
  rw [harg, Real.arcsin_sin h1 h2]
  have hy : (0 : ℝ) * sin (d / 6371) * cos (radians lt) = 0 := by ring
  rw [hy]
  have hcosd : cos (d / 6371)
      = cos (radians lt) * cos (radians lt - d / 6371)
        + sin (radians lt) * sin (radians lt - d / 6371) := by
    have := Real.cos_sub (radians lt) (radians lt - d / 6371)
    have harg2 : radians lt - (radians lt - d / 6371) = d / 6371 := by ring
    rw [harg2] at this
    linarith
  have hxpos : 0 < cos (d / 6371) - sin (radians lt) * sin (radians lt - d / 6371) := by
    rw [hcosd]
    have heq : cos (radians lt) * cos (radians lt - d / 6371)
        + sin (radians lt) * sin (radians lt - d / 6371)
        - sin (radians lt) * sin (radians lt - d / 6371)
        = cos (radians lt) * cos (radians lt - d / 6371) := by ring
    rw [heq]
    positivity
  rw [atan2_zero_of_pos hxpos, add_zero, degrees_radians]

theorem degrees_lt_degrees {x y : ℝ} (h : x < y) : degrees x < degrees y := by
  unfold degrees
  have hpi : 0 < 180 / π := by positivity
  exact mul_lt_mul_of_pos_right h hpi

theorem degrees_pos {x : ℝ} (h : 0 < x) : 0 < degrees x := by
  unfold degrees
  positivity

theorem degrees_pi_div_four : degrees (π / 4) = 45 := by
  unfold degrees
  have : π ≠ 0 := Real.pi_ne_zero
  field_simp
  ring

/-- Planar intersection of the eastward chord from (lon 0, lat 45) with the
vertical chord at lon 5 descending from lat 50. -/
theorem lineCD_eval (LD LT E : ℝ) (hLD : 45 ≤ LD) (hE : 1 ≤ E) :
    line_intersection ((0 : ℝ), 45) (LD, LT) ((5 : ℝ), 50) ((5 : ℝ), 50 - E)
      = some (5, 45 + 5 * (LT - 45) / LD) := by
  unfold line_intersection
  have hdenom : ((0 : ℝ) - LD) * (50 - (50 - E)) - ((45 : ℝ) - LT) * ((5 : ℝ) - 5)
      = -(LD * E) := by ring
  have hLDE : 45 ≤ LD * E := by nlinarith
  rw [if_neg (by rw [hdenom, abs_neg, abs_of_pos (by nlinarith)]; nlinarith)]
  have hLD0 : LD ≠ 0 := by nlinarith
  have hE0 : E ≠ 0 := by nlinarith
  congr 1
  rw [Prod.ext_iff]
  constructor
  · dsimp only
    rw [hdenom]
    field_simp
    ring
  · dsimp only
    rw [hdenom]
    field_simp
    ring

set_option maxHeartbeats 2000000 in
/-- Full evaluation of the pair intersection of the two scenario stations at
an arbitrary projection distance (with side conditions discharged at the two
concrete distances): the accepted point sits at longitude 5 and at a latitude
that depends on the chord bend, i.e. on the distance. -/
theorem intersectCD_eval (d : ℝ) (h0 : 0 < d / 6371) (h2 : d / 6371 < π / 2)
    (hs1 : -(π / 2) ≤ radians 50 - d / 6371) (hs2 : radians 50 - d / 6371 ≤ π / 2)
    (hs4 : 0 < cos (radians 50 - d / 6371))
    (hLD45 : 45 ≤ degrees (arctan (Real.sqrt 2 * tan (d / 6371))))
    (hE1 : 1 ≤ degrees (d / 6371)) :
    intersectPair stC stD d
      = some (45 + 5 * (degrees (arcsin (Real.sqrt 2 / 2 * cos (d / 6371))) - 45)
          / degrees (arctan (Real.sqrt 2 * tan (d / 6371))), 5) := by
  have hcos50 : 0 < cos (radians 50) := by
    apply Real.cos_pos_of_le_one
    rw [abs_le]
    have h3 := Real.pi_gt_three
    have h4 := Real.pi_lt_315
    have : radians 50 = 50 * (π / 180) := rfl
    constructor <;> nlinarith
  set LT := degrees (arcsin (Real.sqrt 2 / 2 * cos (d / 6371))) with hLTdef
  set LD := degrees (arctan (Real.sqrt 2 * tan (d / 6371))) with hLDdef
  set E := degrees (d / 6371) with hEdef
  have hD4 : degrees (radians 50 - d / 6371) = 50 - E := by
    rw [hEdef]
    unfold degrees radians
    have : π ≠ 0 := Real.pi_ne_zero
    field_simp
    ring
  have hLT45 : LT < 45 := by
    rw [hLTdef, ← degrees_pi_div_four]
    apply degrees_lt_degrees
    have hcoslt : cos (d / 6371) < 1 := by
      rcases lt_or_eq_of_le (Real.cos_le_one (d / 6371)) with h | h
      · exact h
      · exfalso
        have hz := (Real.cos_eq_one_iff_of_lt_of_lt
          (show -(2 * π) < d / 6371 by nlinarith [Real.pi_pos])
          (show d / 6371 < 2 * π by nlinarith [Real.pi_pos])).mp h
        nlinarith
    have hs2pos : 0 < Real.sqrt 2 := Real.sqrt_pos.mpr (by norm_num)
    have hs2sq : Real.sqrt 2 * Real.sqrt 2 = 2 := Real.mul_self_sqrt (by norm_num)
    have hs2lt : Real.sqrt 2 < 1.5 := by nlinarith
    have hcospos : 0 < cos (d / 6371) :=
      Real.cos_pos_of_mem_Ioo ⟨by linarith [Real.pi_pos], h2⟩
    have hlt : Real.sqrt 2 / 2 * cos (d / 6371) < Real.sqrt 2 / 2 := by nlinarith
    have hstep : arcsin (Real.sqrt 2 / 2 * cos (d / 6371)) < arcsin (Real.sqrt 2 / 2) := by
      apply Real.strictMonoOn_arcsin ?_ ?_ hlt
      · constructor <;> [nlinarith; nlinarith]
      · constructor <;> [nlinarith; nlinarith]
    have hval : arcsin (Real.sqrt 2 / 2) = π / 4 := by
      rw [← Real.sin_pi_div_four]
      exact Real.arcsin_sin (by linarith [Real.pi_pos]) (by linarith [Real.pi_pos])
    rw [hval] at hstep
    exact hstep
  have hLT0 : 0 < LT := by
    rw [hLTdef]
    apply degrees_pos
    rw [Real.arcsin_pos]
    have hs2pos : 0 < Real.sqrt 2 := Real.sqrt_pos.mpr (by norm_num)
    have hcospos : 0 < cos (d / 6371) :=
      Real.cos_pos_of_mem_Ioo ⟨by linarith [Real.pi_pos], h2⟩
    positivity
  set py := 45 + 5 * (LT - 45) / LD with hpydef
  have hLDpos : (0 : ℝ) < LD := by linarith
  have hpy45 : py < 45 := by
    rw [hpydef]
    have : 5 * (LT - 45) / LD < 0 := by
      apply div_neg_of_neg_of_pos (by linarith) hLDpos
    linarith
  have hpy40 : 40 < py := by
    rw [hpydef]
    have h1 : 5 * (45 - LT) / LD < 5 := by
      rw [div_lt_iff hLDpos]
      nlinarith
    have h2' : 5 * (LT - 45) / LD = -(5 * (45 - LT) / LD) := by ring
    rw [h2']
    linarith
  unfold intersectPair
  rw [show calc_endpoint_haversine stC.lat stC.lon stC.azimuth d
      = (degrees (arcsin (Real.sqrt 2 / 2 * cos (d / 6371))),
         degrees (arctan (Real.sqrt 2 * tan (d / 6371))))
      from endpoint_east45_eval d h0 h2]
  rw [show calc_endpoint_haversine stD.lat stD.lon stD.azimuth d
      = (degrees (radians 50 - d / 6371), 5)
      from endpoint_south_eval 50 5 d hs1 hs2 hcos50 hs4]
  rw [show line_intersection (stC.lon, stC.lat)
      ((degrees (arcsin (Real.sqrt 2 / 2 * cos (d / 6371))),
        degrees (arctan (Real.sqrt 2 * tan (d / 6371)))).2,
       (degrees (arcsin (Real.sqrt 2 / 2 * cos (d / 6371))),
        degrees (arctan (Real.sqrt 2 * tan (d / 6371)))).1)
      (stD.lon, stD.lat)
      ((degrees (radians 50 - d / 6371), (5 : ℝ)).2, (degrees (radians 50 - d / 6371), (5 : ℝ)).1)
      = some (5, py) by
    show line_intersection ((0 : ℝ), 45) (LD, LT) ((5 : ℝ), 50) ((5 : ℝ), degrees (radians 50 - d / 6371)) = some (5, py)
    rw [hD4]
    exact lineCD_eval LD LT E hLD45 hE1]
  show (if wrapDiff (atan2 ((5 : ℝ) - stC.lon) (py - stC.lat) - radians stC.azimuth) < π / 2
      ∧ wrapDiff (atan2 ((5 : ℝ) - stD.lon) (py - stD.lat) - radians stD.azimuth) < π / 2 then
    if (-90 : ℝ) ≤ py ∧ py ≤ 90 ∧ (-180 : ℝ) ≤ 5 ∧ (5 : ℝ) ≤ 180 then
      some (py, (5 : ℝ))
    else none
  else none) = some (py, 5)
  have hd1ok : wrapDiff (atan2 ((5 : ℝ) - stC.lon) (py - stC.lat) - radians stC.azimuth)
      < π / 2 := by
    show wrapDiff (atan2 ((5 : ℝ) - 0) (py - 45) - radians 90) < π / 2
    have hr90 : radians 90 = π / 2 := by unfold radians; ring
    have hxneg : py - 45 < 0 := by linarith
    rw [show (5 : ℝ) - 0 = 5 by ring, atan2_of_nonneg_neg (by norm_num) hxneg, hr90]
    have harctanneg : arctan (5 / (py - 45)) < 0 := by
      have h5 : 5 / (py - 45) < 0 := div_neg_of_pos_of_neg (by norm_num) hxneg
      have := Real.arctan_strictMono h5
      rw [Real.arctan_zero] at this
      exact this
    have harctangt : -(π / 2) < arctan (5 / (py - 45)) := Real.neg_pi_div_two_lt_arctan _
    have hdval : arctan (5 / (py - 45)) + π - π / 2 = arctan (5 / (py - 45)) + π / 2 := by
      ring
    rw [hdval]
    unfold wrapDiff
    rw [abs_of_pos (by linarith), if_neg (by push_neg; linarith [Real.pi_pos])]
    linarith
  have hd2ok : wrapDiff (atan2 ((5 : ℝ) - stD.lon) (py - stD.lat) - radians stD.azimuth)
      < π / 2 := by
    show wrapDiff (atan2 ((5 : ℝ) - 5) (py - 50) - radians 180) < π / 2
    have hr180 : radians 180 = π := by unfold radians; ring
    rw [show (5 : ℝ) - 5 = 0 by ring, atan2_zero_of_neg (by linarith), hr180, sub_self,
      wrapDiff_zero]
    linarith [Real.pi_pos]
  rw [if_pos ⟨hd1ok, hd2ok⟩, if_pos (by norm_num <;> constructor <;> linarith)]

theorem degrees_le_degrees {x y : ℝ} (h : x ≤ y) : degrees x ≤ degrees y := by
  unfold degrees
  have hpi : 0 < 180 / π := by positivity
  exact mul_le_mul_of_nonneg_right h (le_of_lt hpi)

theorem sqrt6_arctan_ge_45 : 45 ≤ degrees (arctan (Real.sqrt 6)) := by
  rw [← degrees_pi_div_four]
  apply degrees_le_degrees
  have h6 : (1 : ℝ) ≤ Real.sqrt 6 := by
    nlinarith [Real.sq_sqrt (show (0 : ℝ) ≤ 6 by norm_num), Real.sqrt_nonneg 6]
  rw [← Real.arctan_one]
  rcases eq_or_lt_of_le h6 with h | h
  · rw [h]
  · exact le_of_lt (Real.arctan_strictMono h)

theorem sqrt2_arctan_ge_45 : 45 ≤ degrees (arctan (Real.sqrt 2)) := by
  rw [← degrees_pi_div_four]
  apply degrees_le_degrees
  have h2 : (1 : ℝ) ≤ Real.sqrt 2 := by
    nlinarith [Real.sq_sqrt (show (0 : ℝ) ≤ 2 by norm_num), Real.sqrt_nonneg 2]
  rw [← Real.arctan_one]
  rcases eq_or_lt_of_le h2 with h | h
  · rw [h]
  · exact le_of_lt (Real.arctan_strictMono h)

theorem intersectCD_d1_eval :
    intersectPair stC stD (6371 * (π / 3))
      = some (45 + 5 * (degrees (arcsin (Real.sqrt 2 / 4)) - 45)
          / degrees (arctan (Real.sqrt 6)), 5) := by
  have hdR : (6371 : ℝ) * (π / 3) / 6371 = π / 3 := by ring
  have hpi := Real.pi_gt_three
  have hpi2 := Real.pi_lt_315
  have h0 : 0 < (6371 : ℝ) * (π / 3) / 6371 := by rw [hdR]; positivity
  have h2 : (6371 : ℝ) * (π / 3) / 6371 < π / 2 := by rw [hdR]; linarith
  have hr50 : radians 50 = 5 * π / 18 := by unfold radians; ring
  have hs1 : -(π / 2) ≤ radians 50 - 6371 * (π / 3) / 6371 := by
    rw [hdR, hr50]; linarith
  have hs2 : radians 50 - 6371 * (π / 3) / 6371 ≤ π / 2 := by
    rw [hdR, hr50]; linarith
  have hs4 : 0 < cos (radians 50 - 6371 * (π / 3) / 6371) := by
    rw [hdR, hr50, show 5 * π / 18 - π / 3 = -(π / 18) by ring]
    apply Real.cos_pos_of_le_one
    rw [abs_le]
    constructor <;> nlinarith
  have hcos : cos ((6371 : ℝ) * (π / 3) / 6371) = 1 / 2 := by
    rw [hdR, Real.cos_pi_div_three]
  have htan : tan ((6371 : ℝ) * (π / 3) / 6371) = Real.sqrt 3 := by
    rw [hdR, Real.tan_eq_sin_div_cos, Real.sin_pi_div_three, Real.cos_pi_div_three]
    ring
  have hsqrt6 : Real.sqrt 2 * Real.sqrt 3 = Real.sqrt 6 := by
    rw [← Real.sqrt_mul (by norm_num : (0 : ℝ) ≤ 2)]
    norm_num
  have hLD45 : 45 ≤ degrees (arctan (Real.sqrt 2 * tan (6371 * (π / 3) / 6371))) := by
    rw [htan, hsqrt6]
    exact sqrt6_arctan_ge_45
  have hE1 : 1 ≤ degrees (6371 * (π / 3) / 6371) := by
    rw [hdR]
    have h60 : degrees (π / 3) = 60 := by
      unfold degrees
      have : π ≠ 0 := Real.pi_ne_zero
      field_simp
      ring
    rw [h60]
    norm_num
  have hmain := intersectCD_eval (6371 * (π / 3)) h0 h2 hs1 hs2 hs4 hLD45 hE1
  rw [hcos, htan, hsqrt6, show Real.sqrt 2 / 2 * (1 / 2) = Real.sqrt 2 / 4 by ring] at hmain
  exact hmain

theorem intersectCD_d2_eval :
    intersectPair stC stD (6371 * (π / 4))
      = some (45 + 5 * ((30 : ℝ) - 45) / degrees (arctan (Real.sqrt 2)), 5) := by
  have hdR : (6371 : ℝ) * (π / 4) / 6371 = π / 4 := by ring
  have hpi := Real.pi_gt_three
  have hpi2 := Real.pi_lt_315
  have h0 : 0 < (6371 : ℝ) * (π / 4) / 6371 := by rw [hdR]; positivity
  have h2 : (6371 : ℝ) * (π / 4) / 6371 < π / 2 := by rw [hdR]; linarith
  have hr50 : radians 50 = 5 * π / 18 := by unfold radians; ring
  have hs1 : -(π / 2) ≤ radians 50 - 6371 * (π / 4) / 6371 := by
    rw [hdR, hr50]; linarith
  have hs2 : radians 50 - 6371 * (π / 4) / 6371 ≤ π / 2 := by
    rw [hdR, hr50]; linarith
  have hs4 : 0 < cos (radians 50 - 6371 * (π / 4) / 6371) := by
    rw [hdR, hr50, show 5 * π / 18 - π / 4 = π / 36 by ring]
    apply Real.cos_pos_of_le_one
    rw [abs_le]
    constructor <;> nlinarith
  have hcos : cos ((6371 : ℝ) * (π / 4) / 6371) = Real.sqrt 2 / 2 := by
    rw [hdR, Real.cos_pi_div_four]
  have htan : tan ((6371 : ℝ) * (π / 4) / 6371) = 1 := by
    rw [hdR, Real.tan_pi_div_four]
  have hs2sq : Real.sqrt 2 * Real.sqrt 2 = 2 := Real.mul_self_sqrt (by norm_num)
  have harcsin : arcsin (Real.sqrt 2 / 2 * (Real.sqrt 2 / 2)) = π / 6 := by
    rw [show Real.sqrt 2 / 2 * (Real.sqrt 2 / 2) = (1 : ℝ) / 2 by
      linear_combination hs2sq / 4]
    rw [← Real.sin_pi_div_six]
    exact Real.arcsin_sin (by linarith) (by linarith)
  have hLD45 : 45 ≤ degrees (arctan (Real.sqrt 2 * tan (6371 * (π / 4) / 6371))) := by
    rw [htan, mul_one]
    exact sqrt2_arctan_ge_45
  have hE1 : 1 ≤ degrees (6371 * (π / 4) / 6371) := by
    rw [hdR, degrees_pi_div_four]
    norm_num
  have hmain := intersectCD_eval (6371 * (π / 4)) h0 h2 hs1 hs2 hs4 hLD45 hE1
  rw [hcos, htan, mul_one, harcsin] at hmain
  have h30 : degrees (π / 6) = 30 := by
    unfold degrees
    have : π ≠ 0 := Real.pi_ne_zero
    field_simp
    ring
  rw [h30] at hmain
  exact hmain

set_option maxHeartbeats 1000000 in
theorem py_d2_gt :
    (43.5 : ℝ) < 45 + 5 * ((30 : ℝ) - 45) / degrees (arctan (Real.sqrt 2)) := by
  suffices h : 50 < degrees (arctan (Real.sqrt 2)) by
    have hpos : 0 < degrees (arctan (Real.sqrt 2)) := by linarith
    rw [show 5 * ((30 : ℝ) - 45) / degrees (arctan (Real.sqrt 2))
        = -(75 / degrees (arctan (Real.sqrt 2))) by ring]
    have hlt : 75 / degrees (arctan (Real.sqrt 2)) < 1.5 := by
      rw [div_lt_iff hpos]
      linarith
    linarith
  have h50 : degrees (5 * π / 18) = 50 := by
    unfold degrees
    have : π ≠ 0 := Real.pi_ne_zero
    field_simp
    ring
  rw [← h50]
  apply degrees_lt_degrees
  have hpi1 := Real.pi_gt_3141592
  have hpi2 := Real.pi_lt_3141593
  set x : ℝ := 5 * π / 18 with hx
  have hx1 : x ≤ 0.8726648 := by rw [hx]; nlinarith
  have hx0 : (0.8726644 : ℝ) ≤ x := by rw [hx]; nlinarith
  have hxpos : (0 : ℝ) < x := by linarith
  have habs : |x| ≤ 1 := by rw [abs_le]; constructor <;> linarith
  have hsinb := Real.sin_bound habs
  have hcosb := Real.cos_bound habs
  rw [abs_le] at hsinb hcosb
  rw [abs_of_nonneg (le_of_lt hxpos)] at hsinb hcosb
  have hx2hi : x ^ 2 ≤ 0.76155 := by nlinarith
  have hx2lo : (0.7615 : ℝ) ≤ x ^ 2 := by nlinarith
  have hx3lo : (0.664 : ℝ) ≤ x ^ 3 := by nlinarith
  have hx4hi : x ^ 4 ≤ 0.58 := by nlinarith
  have hx4lo : (0 : ℝ) ≤ x ^ 4 := by positivity
  have hsinhi : sin x ≤ 0.7923 := by nlinarith [hsinb.2]
  have hcoslo : (0.589 : ℝ) ≤ cos x := by nlinarith [hcosb.1]
  have hcospos : 0 < cos x := by linarith
  have hs2 : (1.414213 : ℝ) ≤ Real.sqrt 2 := by
    nlinarith [Real.sq_sqrt (show (0 : ℝ) ≤ 2 by norm_num), Real.sqrt_nonneg 2]
  have htanlt : tan x < Real.sqrt 2 := by
    rw [Real.tan_eq_sin_div_cos, div_lt_iff hcospos]
    nlinarith [mul_le_mul hs2 hcoslo (by norm_num) (Real.sqrt_nonneg 2)]
  calc x = arctan (tan x) := (Real.arctan_tan (by nlinarith) (by nlinarith)).symm
    _ < arctan (Real.sqrt 2) := Real.arctan_strictMono htanlt

set_option maxHeartbeats 1000000 in
theorem py_d1_lt :
    45 + 5 * (degrees (arcsin (Real.sqrt 2 / 4)) - 45)
      / degrees (arctan (Real.sqrt 6)) < 43.5 := by
  have hpi1 := Real.pi_gt_3141592
  have hpi2 := Real.pi_lt_3141593
  have hs6pos : (0 : ℝ) < Real.sqrt 6 := Real.sqrt_pos.mpr (by norm_num)
  have harctanpos : 0 < arctan (Real.sqrt 6) := by
    have := Real.arctan_strictMono hs6pos
    rw [Real.arctan_zero] at this
    exact this
  have harc : arcsin (Real.sqrt 2 / 4) < 0.37 := by
    have hs2hi : Real.sqrt 2 ≤ 1.414214 := by
      nlinarith [Real.sq_sqrt (show (0 : ℝ) ≤ 2 by norm_num), Real.sqrt_nonneg 2]
    have hs2lo : (0 : ℝ) ≤ Real.sqrt 2 := Real.sqrt_nonneg 2
    have hsin37 : (0.36 : ℝ) ≤ sin 0.37 := by
      have hb := Real.sin_bound (show |(0.37 : ℝ)| ≤ 1 by rw [abs_le]; constructor <;> norm_num)
      rw [abs_le] at hb
      have : |(0.37 : ℝ)| = 0.37 := by rw [abs_of_pos]; norm_num
      rw [this] at hb
      nlinarith [hb.1]
    rw [show (0.37 : ℝ) = arcsin (sin 0.37) from
      (Real.arcsin_sin (by nlinarith) (by nlinarith)).symm]
    apply Real.strictMonoOn_arcsin ?_ ?_ (by nlinarith)
    · constructor <;> nlinarith
    · constructor <;> nlinarith [Real.neg_one_le_sin (0.37 : ℝ), Real.sin_le_one (0.37 : ℝ)]
  have harctan6 : arctan (Real.sqrt 6) < 1.19 := by
    have hinv := Real.arctan_inv_of_pos hs6pos
    have hs6hi : Real.sqrt 6 ≤ 2.4495 := by
      nlinarith [Real.sq_sqrt (show (0 : ℝ) ≤ 6 by norm_num), Real.sqrt_nonneg 6]
    have hlow : (0.3808 : ℝ) < arctan (Real.sqrt 6)⁻¹ := by
      have hc : (0.3808 : ℝ) = arctan (tan 0.3808) :=
        (Real.arctan_tan (by nlinarith) (by nlinarith)).symm
      rw [hc]
      apply Real.arctan_strictMono
      have hb := Real.sin_bound (show |(0.3808 : ℝ)| ≤ 1 by rw [abs_le]; constructor <;> norm_num)
      have hb2 := Real.cos_bound (show |(0.3808 : ℝ)| ≤ 1 by rw [abs_le]; constructor <;> norm_num)
      rw [abs_le] at hb hb2
      have habs38 : |(0.3808 : ℝ)| = 0.3808 := by rw [abs_of_pos]; norm_num
      rw [habs38] at hb hb2
      have hsinhi : sin (0.3808 : ℝ) ≤ 0.37270 := by nlinarith [hb.2]
      have hcoslo : (0.9264 : ℝ) ≤ cos (0.3808 : ℝ) := by nlinarith [hb2.1]
      have hcospos : (0 : ℝ) < cos 0.3808 := by linarith
      rw [Real.tan_eq_sin_div_cos, div_lt_iff hcospos]
      have hinvlo : (1 : ℝ) / 2.4495 ≤ (Real.sqrt 6)⁻¹ := by
        rw [inv_eq_one_div]
        exact one_div_le_one_div_of_le hs6pos hs6hi
      have hstep : (1 : ℝ) / 2.4495 * 0.9264 ≤ (Real.sqrt 6)⁻¹ * cos 0.3808 :=
        mul_le_mul hinvlo hcoslo (by norm_num) (by positivity)
      nlinarith
    have hpi2' : π / 2 < 1.5707965 := by linarith
    linarith [hinv]
  have hkey : 5 * (degrees (arcsin (Real.sqrt 2 / 4)) - 45) / degrees (arctan (Real.sqrt 6))
      = 5 * (arcsin (Real.sqrt 2 / 4) - π / 4) / arctan (Real.sqrt 6) := by
    unfold degrees
    rw [div_eq_div_iff (ne_of_gt (by positivity)) (ne_of_gt harctanpos)]
    have : π ≠ 0 := Real.pi_ne_zero
    field_simp
    ring
  rw [hkey]
  rw [show 5 * (arcsin (Real.sqrt 2 / 4) - π / 4) / arctan (Real.sqrt 6)
      = -(5 * (π / 4 - arcsin (Real.sqrt 2 / 4)) / arctan (Real.sqrt 6)) by ring]
  suffices h : 1.5 < 5 * (π / 4 - arcsin (Real.sqrt 2 / 4)) / arctan (Real.sqrt 6) by
    linarith
  rw [lt_div_iff harctanpos]
  nlinarith

/-- Claim C5 fails as stated: for the valid crossing of stations (45,0,az 90)
and (50,5,az 180), the two projection distances 6371*pi/3 and 6371*pi/4 (both
positive and far larger than needed to reach the crossing) both produce an
accepted intersection, but the two intersections differ: the eastward chord of
station C bends south by a distance-dependent amount in the lon/lat chart, so
the planar intersection moves with the projection distance. -/
theorem C5_counterexample :
    (intersectPair stC stD (6371 * (π / 3))).isSome
      ∧ (intersectPair stC stD (6371 * (π / 4))).isSome
      ∧ intersectPair stC stD (6371 * (π / 3)) ≠ intersectPair stC stD (6371 * (π / 4)) := by
  refine ⟨by rw [intersectCD_d1_eval]; rfl, by rw [intersectCD_d2_eval]; rfl, ?_⟩
  rw [intersectCD_d1_eval, intersectCD_d2_eval]
  intro hcontra
  have heq := congrArg Prod.fst (Option.some.inj hcontra)
  dsimp only at heq
  have h1 := py_d1_lt
  have h2 := py_d2_gt
  rw [heq] at h1
  linarith

/-- Claim C5 (amended): the returned point, when one is returned, is the
intersection of the two INFINITE lines through the chords (no clipping to the
finite segments is applied), but it is not independent of the projection
distance in general, because the chord direction changes with the distance. -/
theorem C5_infinite_line (p1 p2 p3 p4 r : ℝ × ℝ)
    (h : line_intersection p1 p2 p3 p4 = some r) :
    (∃ t : ℝ, r = (p1.1 + t * (p2.1 - p1.1), p1.2 + t * (p2.2 - p1.2)))
      ∧ ∃ u : ℝ, r = (p3.1 + u * (p4.1 - p3.1), p3.2 + u * (p4.2 - p3.2)) := by
  unfold line_intersection at h
  by_cases hd : |(p1.1 - p2.1) * (p3.2 - p4.2) - (p1.2 - p2.2) * (p3.1 - p4.1)| < 1e-10
  · rw [if_pos hd] at h
    cases h
  · rw [if_neg hd] at h
    have hD : (p1.1 - p2.1) * (p3.2 - p4.2) - (p1.2 - p2.2) * (p3.1 - p4.1) ≠ 0 := by
      intro h0
      rw [h0, abs_zero] at hd
      exact hd (by norm_num)
    have hr := (Option.some.inj h).symm
    constructor
    · exact ⟨_, hr⟩
    · refine ⟨((p1.1 - p3.1) * (p1.2 - p2.2) - (p1.2 - p3.2) * (p1.1 - p2.1))
        / ((p1.1 - p2.1) * (p3.2 - p4.2) - (p1.2 - p2.2) * (p3.1 - p4.1)), ?_⟩
      rw [hr, Prod.ext_iff]
      constructor
      · dsimp only
        field_simp
        ring
      · dsimp only
        field_simp
        ring

theorem C5_infinite_line_witness :
    (∃ t : ℝ, ((5 : ℝ), (0 : ℝ)) = ((0 : ℝ) + t * (1 - 0), (0 : ℝ) + t * (0 - 0)))
      ∧ ∃ u : ℝ, ((5 : ℝ), (0 : ℝ)) = ((5 : ℝ) + u * (5 - 5), (1 : ℝ) + u * (-1 - 1)) :=
  C5_infinite_line (0, 0) (1, 0) (5, 1) (5, -1) (5, 0) (by
    unfold line_intersection
    rw [if_neg (by norm_num)]
    norm_num)

/- ------------------------------------------------------------------ -/
/- Claim C7: the Paris UTM scenario.                                  -/
/- ------------------------------------------------------------------ -/

theorem sqrt_two_bounds : (1.41421356 : ℝ) ≤ Real.sqrt 2 ∧ Real.sqrt 2 ≤ 1.41421357 := by
  have h := Real.sq_sqrt (by norm_num : (0:ℝ) ≤ 2)
  have hpos := Real.sqrt_nonneg 2
  constructor <;> nlinarith

theorem paris_zone : utmZone 48.8566 2.3522 = 31 := by
  unfold utmZone
  dsimp only
  rw [if_neg (by norm_num), if_neg (by norm_num)]
  unfold pyInt
  rw [if_pos (by norm_num : (0:ℝ) ≤ (2.3522 + 180) / 6)]
  rw [show ⌊((2.3522 : ℝ) + 180) / 6⌋ = 30 by rw [Int.floor_eq_iff] <;> norm_num]
  norm_num

theorem paris_letter : utmBandLetter 48.8566 = 'U' := by
  have hidx : utmBandIdx 48.8566 = 16 := by
    unfold utmBandIdx pyInt
    rw [if_pos (by norm_num : (0:ℝ) ≤ (48.8566 + 80) / 8)]
    rw [show ⌊((48.8566 : ℝ) + 80) / 8⌋ = 16 by rw [Int.floor_eq_iff] <;> norm_num]
  unfold utmBandLetter utmBandLetterOpt
  rw [if_pos (by norm_num : (-80 : ℝ) ≤ 48.8566 ∧ (48.8566 : ℝ) ≤ 84), hidx]
  rfl

theorem paris_r_bounds :
    (0.0673103 : ℝ) ≤ 3.8566 * π / 180 ∧ 3.8566 * π / 180 ≤ 0.0673104 := by
  have h1 := Real.pi_gt_3141592
  have h2 := Real.pi_lt_3141593
  constructor <;> nlinarith

set_option maxHeartbeats 1000000 in
theorem paris_sin_r_bounds :
    (0.06725 : ℝ) ≤ sin (3.8566 * π / 180) ∧ sin (3.8566 * π / 180) ≤ 0.06727 := by
  obtain ⟨hrl, hrh⟩ := paris_r_bounds
  have hr0 : (0:ℝ) ≤ 3.8566 * π / 180 := by linarith
  have hr1 : |3.8566 * π / 180| ≤ 1 := by rw [abs_of_nonneg hr0]; linarith
  have hb := abs_le.mp (Real.sin_bound hr1)
  rw [abs_of_nonneg hr0] at hb
  set r : ℝ := 3.8566 * π / 180 with hrdef
  have hr2l : (0.0045306 : ℝ) ≤ r ^ 2 := by
    nlinarith [mul_nonneg (by linarith : (0:ℝ) ≤ r - 0.0673103)
      (by linarith : (0:ℝ) ≤ r + 0.0673103)]
  have hr2h : r ^ 2 ≤ 0.0045307 := by
    nlinarith [mul_nonneg (by linarith : (0:ℝ) ≤ 0.0673104 - r)
      (by linarith : (0:ℝ) ≤ 0.0673104 + r)]
  have hr3l : (0.0003049 : ℝ) ≤ r ^ 3 := by
    nlinarith [mul_nonneg (sq_nonneg r) (by linarith : (0:ℝ) ≤ r - 0.0673103)]
  have hr3h : r ^ 3 ≤ 0.000305 := by
    nlinarith [mul_nonneg (sq_nonneg r) (by linarith : (0:ℝ) ≤ 0.0673104 - r)]
  have hr4 : r ^ 4 ≤ 0.0000206 := by
    nlinarith [mul_nonneg (by linarith : (0:ℝ) ≤ 0.0045307 - r ^ 2)
      (by nlinarith [sq_nonneg r] : (0:ℝ) ≤ 0.0045307 + r ^ 2)]
  have hr40 : (0:ℝ) ≤ r ^ 4 := by positivity
  constructor <;> linarith [hb.1, hb.2]

set_option maxHeartbeats 1000000 in
theorem paris_cos_r_bounds :
    (0.99773 : ℝ) ≤ cos (3.8566 * π / 180) ∧ cos (3.8566 * π / 180) ≤ 0.99774 := by
  obtain ⟨hrl, hrh⟩ := paris_r_bounds
  have hr0 : (0:ℝ) ≤ 3.8566 * π / 180 := by linarith
  have hr1 : |3.8566 * π / 180| ≤ 1 := by rw [abs_of_nonneg hr0]; linarith
  have hb := abs_le.mp (Real.cos_bound hr1)
  rw [abs_of_nonneg hr0] at hb
  set r : ℝ := 3.8566 * π / 180 with hrdef
  have hr2l : (0.0045306 : ℝ) ≤ r ^ 2 := by
    nlinarith [mul_nonneg (by linarith : (0:ℝ) ≤ r - 0.0673103)
      (by linarith : (0:ℝ) ≤ r + 0.0673103)]
  have hr2h : r ^ 2 ≤ 0.0045307 := by
    nlinarith [mul_nonneg (by linarith : (0:ℝ) ≤ 0.0673104 - r)
      (by linarith : (0:ℝ) ≤ 0.0673104 + r)]
  have hr4 : r ^ 4 ≤ 0.0000206 := by
    nlinarith [mul_nonneg (by linarith : (0:ℝ) ≤ 0.0045307 - r ^ 2)
      (by nlinarith [sq_nonneg r] : (0:ℝ) ≤ 0.0045307 + r ^ 2)]
  have hr40 : (0:ℝ) ≤ r ^ 4 := by positivity
  constructor <;> linarith [hb.1, hb.2]

theorem paris_lat_eq : radians 48.8566 = π / 4 + 3.8566 * π / 180 := by
  unfold radians; ring

theorem paris_lat_bounds :
    (0.8527083 : ℝ) ≤ radians 48.8566 ∧ radians 48.8566 ≤ 0.8527087 := by
  unfold radians
  have h1 := Real.pi_gt_3141592
  have h2 := Real.pi_lt_3141593
  constructor <;> nlinarith

set_option maxHeartbeats 1000000 in
theorem paris_sin_lat_bounds :
    (0.75305 : ℝ) ≤ sin (radians 48.8566) ∧ sin (radians 48.8566) ≤ 0.75308 := by
  obtain ⟨hsl, hsh⟩ := paris_sin_r_bounds
  obtain ⟨hcl, hch⟩ := paris_cos_r_bounds
  obtain ⟨hql, hqh⟩ := sqrt_two_bounds
  rw [paris_lat_eq, Real.sin_add, Real.sin_pi_div_four, Real.cos_pi_div_four]
  set r : ℝ := 3.8566 * π / 180 with hrdef
  set q : ℝ := Real.sqrt 2 with hqdef
  constructor
  · nlinarith [mul_nonneg (by linarith : (0:ℝ) ≤ q - 1.41421356)
      (by linarith : (0:ℝ) ≤ cos r + sin r - 1.06498)]
  · nlinarith [mul_nonneg (by linarith : (0:ℝ) ≤ 1.41421357 - q)
      (by linarith : (0:ℝ) ≤ cos r + sin r - 1.06498)]

set_option maxHeartbeats 1000000 in
theorem paris_cos_lat_bounds :
    (0.65793 : ℝ) ≤ cos (radians 48.8566) ∧ cos (radians 48.8566) ≤ 0.65796 := by
  obtain ⟨hsl, hsh⟩ := paris_sin_r_bounds
  obtain ⟨hcl, hch⟩ := paris_cos_r_bounds
  obtain ⟨hql, hqh⟩ := sqrt_two_bounds
  rw [paris_lat_eq, Real.cos_add, Real.sin_pi_div_four, Real.cos_pi_div_four]
  set r : ℝ := 3.8566 * π / 180 with hrdef
  set q : ℝ := Real.sqrt 2 with hqdef
  constructor
  · nlinarith [mul_nonneg (by linarith : (0:ℝ) ≤ q - 1.41421356)
      (by linarith : (0:ℝ) ≤ cos r - sin r - 0.93046)]
  · nlinarith [mul_nonneg (by linarith : (0:ℝ) ≤ 1.41421357 - q)
      (by linarith : (0:ℝ) ≤ cos r - sin r - 0.93046)]

theorem paris_tan_bounds :
    (1.14452 : ℝ) ≤ tan (radians 48.8566) ∧ tan (radians 48.8566) ≤ 1.14463 := by
  obtain ⟨hsl, hsh⟩ := paris_sin_lat_bounds
  obtain ⟨hcl, hch⟩ := paris_cos_lat_bounds
  have hcpos : (0:ℝ) < cos (radians 48.8566) := by linarith
  rw [Real.tan_eq_sin_div_cos]
  constructor
  · rw [le_div_iff hcpos]; nlinarith
  · rw [div_le_iff hcpos]; nlinarith

set_option maxHeartbeats 1000000 in
theorem paris_sin2_bounds :
    (0.990920 : ℝ) ≤ sin (2 * radians 48.8566)
      ∧ sin (2 * radians 48.8566) ≤ 0.990958 := by
  obtain ⟨hrl, hrh⟩ := paris_r_bounds
  have h2 : 2 * radians 48.8566 = π / 2 + 2 * (3.8566 * π / 180) := by
    unfold radians; ring
  rw [h2, Real.sin_add, Real.sin_pi_div_two, Real.cos_pi_div_two]
  set u : ℝ := 2 * (3.8566 * π / 180) with hudef
  have hul : (0.1346206 : ℝ) ≤ u := by rw [hudef]; linarith
  have huh : u ≤ 0.1346208 := by rw [hudef]; linarith
  have hu0 : (0:ℝ) ≤ u := by linarith
  have hu1 : |u| ≤ 1 := by rw [abs_of_nonneg hu0]; linarith
  have hb := abs_le.mp (Real.cos_bound hu1)
  rw [abs_of_nonneg hu0] at hb
  have hu2l : (0.0181227 : ℝ) ≤ u ^ 2 := by
    nlinarith [mul_nonneg (by linarith : (0:ℝ) ≤ u - 0.1346206)
      (by linarith : (0:ℝ) ≤ u + 0.1346206)]
  have hu2h : u ^ 2 ≤ 0.0181228 := by
    nlinarith [mul_nonneg (by linarith : (0:ℝ) ≤ 0.1346208 - u)
      (by linarith : (0:ℝ) ≤ 0.1346208 + u)]
  have hu4 : u ^ 4 ≤ 0.000329 := by
    nlinarith [mul_nonneg (by linarith : (0:ℝ) ≤ 0.0181228 - u ^ 2)
      (by nlinarith [sq_nonneg u] : (0:ℝ) ≤ 0.0181228 + u ^ 2)]
  have hu40 : (0:ℝ) ≤ u ^ 4 := by positivity
  constructor <;> nlinarith [hb.1, hb.2]

set_option maxHeartbeats 1000000 in
theorem paris_sin4_bounds :
    (-0.26630 : ℝ) ≤ sin (4 * radians 48.8566)
      ∧ sin (4 * radians 48.8566) ≤ -0.26570 := by
  obtain ⟨hrl, hrh⟩ := paris_r_bounds
  have h4 : 4 * radians 48.8566 = π + 4 * (3.8566 * π / 180) := by
    unfold radians; ring
  rw [h4, Real.sin_add, Real.sin_pi, Real.cos_pi]
  set u : ℝ := 4 * (3.8566 * π / 180) with hudef
  have hul : (0.2692412 : ℝ) ≤ u := by rw [hudef]; linarith
  have huh : u ≤ 0.2692416 := by rw [hudef]; linarith
  have hu0 : (0:ℝ) ≤ u := by linarith
  have hu1 : |u| ≤ 1 := by rw [abs_of_nonneg hu0]; linarith
  have hb := abs_le.mp (Real.sin_bound hu1)
  rw [abs_of_nonneg hu0] at hb
  have hu2l : (0.0724908 : ℝ) ≤ u ^ 2 := by
    nlinarith [mul_nonneg (by linarith : (0:ℝ) ≤ u - 0.2692412)
      (by linarith : (0:ℝ) ≤ u + 0.2692412)]
  have hu2h : u ^ 2 ≤ 0.0724911 := by
    nlinarith [mul_nonneg (by linarith : (0:ℝ) ≤ 0.2692416 - u)
      (by linarith : (0:ℝ) ≤ 0.2692416 + u)]
  have hu3l : (0.019517 : ℝ) ≤ u ^ 3 := by
    nlinarith [mul_le_mul hul hu2l (by norm_num) (by linarith)]
  have hu3h : u ^ 3 ≤ 0.019518 := by
    nlinarith [mul_le_mul huh hu2h (by positivity) (by norm_num)]
  have hu4 : u ^ 4 ≤ 0.005255 := by
    nlinarith [mul_nonneg (by linarith : (0:ℝ) ≤ 0.0724911 - u ^ 2)
      (by nlinarith [sq_nonneg u] : (0:ℝ) ≤ 0.0724911 + u ^ 2)]
  have hu40 : (0:ℝ) ≤ u ^ 4 := by positivity
  constructor <;> nlinarith [hb.1, hb.2]

set_option maxHeartbeats 1000000 in
theorem paris_sin6_bounds :
    (-0.91990 : ℝ) ≤ sin (6 * radians 48.8566)
      ∧ sin (6 * radians 48.8566) ≤ -0.91700 := by
  obtain ⟨hrl, hrh⟩ := paris_r_bounds
  have h6 : 6 * radians 48.8566 = π + (π / 2 + 6 * (3.8566 * π / 180)) := by
    unfold radians; ring
  rw [h6, Real.sin_add, Real.sin_pi, Real.cos_pi]
  rw [Real.sin_add, Real.sin_pi_div_two, Real.cos_pi_div_two]
  set u : ℝ := 6 * (3.8566 * π / 180) with hudef
  have hul : (0.4038618 : ℝ) ≤ u := by rw [hudef]; linarith
  have huh : u ≤ 0.4038624 := by rw [hudef]; linarith
  have hu0 : (0:ℝ) ≤ u := by linarith
  have hu1 : |u| ≤ 1 := by rw [abs_of_nonneg hu0]; linarith
  have hb := abs_le.mp (Real.cos_bound hu1)
  rw [abs_of_nonneg hu0] at hb
  have hu2l : (0.1631043 : ℝ) ≤ u ^ 2 := by
    nlinarith [mul_nonneg (by linarith : (0:ℝ) ≤ u - 0.4038618)
      (by linarith : (0:ℝ) ≤ u + 0.4038618)]
  have hu2h : u ^ 2 ≤ 0.1631049 := by
    nlinarith [mul_nonneg (by linarith : (0:ℝ) ≤ 0.4038624 - u)
      (by linarith : (0:ℝ) ≤ 0.4038624 + u)]
  have hu4 : u ^ 4 ≤ 0.0266033 := by
    nlinarith [mul_nonneg (by linarith : (0:ℝ) ≤ 0.1631049 - u ^ 2)
      (by nlinarith [sq_nonneg u] : (0:ℝ) ≤ 0.1631049 + u ^ 2)]
  have hu40 : (0:ℝ) ≤ u ^ 4 := by positivity
  constructor <;> nlinarith [hb.1, hb.2]

set_option maxHeartbeats 4000000 in
theorem paris_utm_core :
    (452480 : ℝ) ≤ (lat_lon_to_utm 48.8566 2.3522).easting
      ∧ (lat_lon_to_utm 48.8566 2.3522).easting ≤ 452486
      ∧ (5411712 : ℝ) ≤ (lat_lon_to_utm 48.8566 2.3522).northing
      ∧ (lat_lon_to_utm 48.8566 2.3522).northing ≤ 5411721 := by
  obtain ⟨hsl, hsh⟩ := paris_sin_lat_bounds
  obtain ⟨hcl, hch⟩ := paris_cos_lat_bounds
  obtain ⟨htl, hth⟩ := paris_tan_bounds
  obtain ⟨hLl, hLh⟩ := paris_lat_bounds
  obtain ⟨h2l, h2h⟩ := paris_sin2_bounds
  obtain ⟨h4l, h4h⟩ := paris_sin4_bounds
  obtain ⟨h6l, h6h⟩ := paris_sin6_bounds
  have hpl := Real.pi_gt_3141592
  have hph := Real.pi_lt_3141593
  have he2 : Real.sqrt (1 / 298.257223563 * (2 - 1 / 298.257223563))
      * Real.sqrt (1 / 298.257223563 * (2 - 1 / 298.257223563))
      = 1 / 298.257223563 * (2 - 1 / 298.257223563) :=
    Real.mul_self_sqrt (by norm_num)
  have hdl : radians 2.3522
      - radians ((((utmZone 48.8566 2.3522 : ℤ) : ℝ) - 1) * 6 - 180 + 3)
      = -(0.6478 * π) / 180 := by
    rw [paris_zone]
    unfold radians
    push_cast
    ring
  unfold lat_lon_to_utm
  dsimp only
  rw [he2, hdl]
  rw [if_neg (by norm_num : ¬((48.8566 : ℝ) < 0))]
  set s : ℝ := sin (radians 48.8566) with hsdef
  set c : ℝ := cos (radians 48.8566) with hcdef
  set t : ℝ := tan (radians 48.8566) with htdef
  set L : ℝ := radians 48.8566 with hLdef
  set A : ℝ := -(0.6478 * π) / 180 * c with hAdef
  set X : ℝ := 1 / 298.257223563 * (2 - 1 / 298.257223563) with hXdef
  set ep : ℝ := X / (1 - X) with hepdef
  have hXl : (0.0066943 : ℝ) ≤ X := by rw [hXdef]; norm_num
  have hXh : X ≤ 0.0066944 := by rw [hXdef]; norm_num
  have hepl : (0.0067394 : ℝ) ≤ ep := by rw [hepdef, hXdef]; norm_num
  have heph : ep ≤ 0.0067395 := by rw [hepdef, hXdef]; norm_num
  have hAl : (-0.0074392 : ℝ) ≤ A := by
    rw [hAdef]
    nlinarith only [mul_nonneg (by linarith only [hph] : (0:ℝ) ≤ 3.141593 - π)
      (by linarith only [hcl] : (0:ℝ) ≤ c), hch]
  have hAh : A ≤ -0.0074385 := by
    rw [hAdef]
    nlinarith only [mul_nonneg (by linarith only [hpl] : (0:ℝ) ≤ π - 3.141592)
      (by linarith only [hcl] : (0:ℝ) ≤ c), hcl]
  have hco0l : (0.99832429 : ℝ) ≤ 1 - X / 4 - 3 * X ^ 2 / 64 - 5 * X ^ 3 / 256 := by
    rw [hXdef]; norm_num
  have hco0h : 1 - X / 4 - 3 * X ^ 2 / 64 - 5 * X ^ 3 / 256 ≤ 0.99832430 := by
    rw [hXdef]; norm_num
  have hco1l : (0.00251460 : ℝ) ≤ 3 * X / 8 + 3 * X ^ 2 / 32 + 45 * X ^ 3 / 1024 := by
    rw [hXdef]; norm_num
  have hco1h : 3 * X / 8 + 3 * X ^ 2 / 32 + 45 * X ^ 3 / 1024 ≤ 0.00251461 := by
    rw [hXdef]; norm_num
  have hco2l : (0.000002639 : ℝ) ≤ 15 * X ^ 2 / 256 + 45 * X ^ 3 / 1024 := by
    rw [hXdef]; norm_num
  have hco2h : 15 * X ^ 2 / 256 + 45 * X ^ 3 / 1024 ≤ 0.0000026391 := by
    rw [hXdef]; norm_num
  have hco3l : (0.000000003418 : ℝ) ≤ 35 * X ^ 3 / 3072 := by
    rw [hXdef]; norm_num
  have hco3h : 35 * X ^ 3 / 3072 ≤ 0.0000000034181 := by
    rw [hXdef]; norm_num
  clear_value s c t L A X ep
  have hL0 : (0:ℝ) ≤ L := by linarith only [hLl]
  have hA2l : (0.0000553312 : ℝ) ≤ A ^ 2 := by
    nlinarith only [mul_nonneg (by linarith only [hAh] : (0:ℝ) ≤ -0.0074385 - A)
      (by linarith only [hAh] : (0:ℝ) ≤ -A + 0.0074385)]
  have hA2h : A ^ 2 ≤ 0.0000553418 := by
    nlinarith only [mul_nonneg (by linarith only [hAl] : (0:ℝ) ≤ A + 0.0074392)
      (by linarith only [hAl, hAh] : (0:ℝ) ≤ 0.0074392 - A)]
  have hA3l : (-0.0000004118 : ℝ) ≤ A ^ 3 := by
    nlinarith only [mul_le_mul (by linarith only [hAl] : -A ≤ 0.0074392) hA2h
      (sq_nonneg A) (by norm_num : (0:ℝ) ≤ 0.0074392)]
  have hA3h : A ^ 3 ≤ -0.0000004115 := by
    nlinarith only [mul_le_mul (by linarith only [hAh] : (0.0074385:ℝ) ≤ -A) hA2l
      (by norm_num : (0:ℝ) ≤ 0.0000553312) (by linarith only [hAh] : (0:ℝ) ≤ -A)]
  have hA4l : (0.0000000030615 : ℝ) ≤ A ^ 4 := by
    nlinarith only [mul_nonneg (by linarith only [hA2l] : (0:ℝ) ≤ A ^ 2 - 0.0000553312)
      (by linarith only [hA2l] : (0:ℝ) ≤ A ^ 2 + 0.0000553312)]
  have hA4h : A ^ 4 ≤ 0.0000000030628 := by
    nlinarith only [mul_nonneg (by linarith only [hA2h] : (0:ℝ) ≤ 0.0000553418 - A ^ 2)
      (by linarith only [hA2l] : (0:ℝ) ≤ 0.0000553418 + A ^ 2)]
  have hA5l : (-0.0000000000228 : ℝ) ≤ A ^ 5 := by
    nlinarith only [mul_le_mul (by linarith only [hA3l] : -(A ^ 3) ≤ 0.0000004118) hA2h
      (sq_nonneg A) (by norm_num : (0:ℝ) ≤ 0.0000004118)]
  have hA5h : A ^ 5 ≤ -0.00000000002276 := by
    nlinarith only [mul_le_mul (by linarith only [hA3h] : (0.0000004115:ℝ) ≤ -(A ^ 3)) hA2l
      (by norm_num : (0:ℝ) ≤ 0.0000553312) (by linarith only [hA3h] : (0:ℝ) ≤ -(A ^ 3))]
  have hA6l : (0.000000000000169 : ℝ) ≤ A ^ 6 := by
    nlinarith only [mul_le_mul hA4l hA2l
      (by norm_num : (0:ℝ) ≤ 0.0000553312)
      (by linarith only [hA4l] : (0:ℝ) ≤ A ^ 4)]
  have hA6h : A ^ 6 ≤ 0.00000000000017 := by
    nlinarith only [mul_le_mul hA4h hA2h (sq_nonneg A)
      (by norm_num : (0:ℝ) ≤ 0.0000000030628)]
  have hT2l : (1.3099 : ℝ) ≤ t ^ 2 := by
    nlinarith only [mul_nonneg (by linarith only [htl] : (0:ℝ) ≤ t - 1.14452)
      (by linarith only [htl] : (0:ℝ) ≤ t + 1.14452)]
  have hT2h : t ^ 2 ≤ 1.3102 := by
    nlinarith only [mul_nonneg (by linarith only [hth] : (0:ℝ) ≤ 1.14463 - t)
      (by linarith only [htl] : (0:ℝ) ≤ 1.14463 + t)]
  have hT4l : (1.71583 : ℝ) ≤ (t ^ 2) ^ 2 := by
    nlinarith only [mul_nonneg (by linarith only [hT2l] : (0:ℝ) ≤ t ^ 2 - 1.3099)
      (by linarith only [hT2l] : (0:ℝ) ≤ t ^ 2 + 1.3099)]
  have hT4h : (t ^ 2) ^ 2 ≤ 1.71663 := by
    nlinarith only [mul_nonneg (by linarith only [hT2h] : (0:ℝ) ≤ 1.3102 - t ^ 2)
      (by linarith only [hT2l] : (0:ℝ) ≤ 1.3102 + t ^ 2)]
  have hc2l : (0.43287 : ℝ) ≤ c ^ 2 := by
    nlinarith only [mul_nonneg (by linarith only [hcl] : (0:ℝ) ≤ c - 0.65793)
      (by linarith only [hcl] : (0:ℝ) ≤ c + 0.65793)]
  have hc2h : c ^ 2 ≤ 0.432912 := by
    nlinarith only [mul_nonneg (by linarith only [hch] : (0:ℝ) ≤ 0.65796 - c)
      (by linarith only [hcl] : (0:ℝ) ≤ 0.65796 + c)]
  have hCl : (0.002917 : ℝ) ≤ ep * c ^ 2 := by
    nlinarith only [mul_le_mul hepl hc2l (by norm_num : (0:ℝ) ≤ 0.43287)
      (by linarith only [hepl] : (0:ℝ) ≤ ep)]
  have hCh : ep * c ^ 2 ≤ 0.002918 := by
    nlinarith only [mul_le_mul heph hc2h (sq_nonneg c)
      (by norm_num : (0:ℝ) ≤ 0.0067395)]
  have hCsql : (0.0000085 : ℝ) ≤ (ep * c ^ 2) ^ 2 := by
    nlinarith only [mul_nonneg (by linarith only [hCl] : (0:ℝ) ≤ ep * c ^ 2 - 0.002917)
      (by linarith only [hCl] : (0:ℝ) ≤ ep * c ^ 2 + 0.002917)]
  have hCsqh : (ep * c ^ 2) ^ 2 ≤ 0.0000086 := by
    nlinarith only [mul_nonneg (by linarith only [hCh] : (0:ℝ) ≤ 0.002918 - ep * c ^ 2)
      (by linarith only [hCl] : (0:ℝ) ≤ 0.002918 + ep * c ^ 2)]
  have hs2l : (0.5670843 : ℝ) ≤ s ^ 2 := by
    nlinarith only [mul_nonneg (by linarith only [hsl] : (0:ℝ) ≤ s - 0.75305)
      (by linarith only [hsl] : (0:ℝ) ≤ s + 0.75305)]
  have hs2h : s ^ 2 ≤ 0.5671295 := by
    nlinarith only [mul_nonneg (by linarith only [hsh] : (0:ℝ) ≤ 0.75308 - s)
      (by linarith only [hsl] : (0:ℝ) ≤ 0.75308 + s)]
  have hvl : (0.9962034 : ℝ) ≤ 1 - X * s ^ 2 := by
    nlinarith only [mul_le_mul hXh hs2h (sq_nonneg s)
      (by norm_num : (0:ℝ) ≤ 0.0066944)]
  have hvh : 1 - X * s ^ 2 ≤ 0.9962041 := by
    nlinarith only [mul_le_mul hXl hs2l (by norm_num : (0:ℝ) ≤ 0.5670843)
      (by linarith only [hXl] : (0:ℝ) ≤ X)]
  have hql : (0.9980997 : ℝ) ≤ Real.sqrt (1 - X * s ^ 2) := by
    rw [show (0.9980997 : ℝ) = Real.sqrt (0.9980997 ^ 2)
      from (Real.sqrt_sq (by norm_num)).symm]
    exact Real.sqrt_le_sqrt (by linarith only [hvl])
  have hqh : Real.sqrt (1 - X * s ^ 2) ≤ 0.9981004 := by
    have h := Real.sqrt_le_sqrt
      (show 1 - X * s ^ 2 ≤ 0.9981004 ^ 2 by linarith only [hvh])
    rwa [Real.sqrt_sq (by norm_num)] at h
  set q : ℝ := Real.sqrt (1 - X * s ^ 2) with hqdef
  clear_value q
  have hq0 : (0:ℝ) < q := by linarith only [hql]
  have hNl : (6390274 : ℝ) ≤ 6378137.0 / q := by
    rw [le_div_iff hq0]; linarith only [hqh]
  have hNh : 6378137.0 / q ≤ 6390281 := by
    rw [div_le_iff hq0]; linarith only [hql]
  set N : ℝ := 6378137.0 / q with hNdef
  clear_value N
  have hc3l : (-0.3073 : ℝ) ≤ 1 - t ^ 2 + ep * c ^ 2 := by
    linarith only [hT2h, hCl]
  have hc3h : 1 - t ^ 2 + ep * c ^ 2 ≤ -0.3069 := by
    linarith only [hT2l, hCh]
  have ht3l : (0.000000021 : ℝ) ≤ (1 - t ^ 2 + ep * c ^ 2) * A ^ 3 / 6 := by
    nlinarith only [mul_le_mul
      (by linarith only [hc3h] : (0.3069:ℝ) ≤ -(1 - t ^ 2 + ep * c ^ 2))
      (by linarith only [hA3h] : (0.0000004115:ℝ) ≤ -(A ^ 3))
      (by norm_num : (0:ℝ) ≤ 0.0000004115)
      (by linarith only [hc3h] : (0:ℝ) ≤ -(1 - t ^ 2 + ep * c ^ 2))]
  have ht3h : (1 - t ^ 2 + ep * c ^ 2) * A ^ 3 / 6 ≤ 0.0000000211 := by
    nlinarith only [mul_le_mul
      (by linarith only [hc3l] : -(1 - t ^ 2 + ep * c ^ 2) ≤ 0.3073)
      (by linarith only [hA3l] : -(A ^ 3) ≤ 0.0000004118)
      (by linarith only [hA3h] : (0:ℝ) ≤ -(A ^ 3))
      (by norm_num : (0:ℝ) ≤ 0.3073)]
  have hc5l : (-17.06 : ℝ)
      ≤ 5 - 18 * t ^ 2 + (t ^ 2) ^ 2 + 72 * (ep * c ^ 2) - 58 * ep := by
    linarith only [hT2h, hT4l, hCl, heph]
  have hc5h : 5 - 18 * t ^ 2 + (t ^ 2) ^ 2 + 72 * (ep * c ^ 2) - 58 * ep
      ≤ -17.03 := by
    linarith only [hT2l, hT4h, hCh, hepl]
  have ht5l : (0.0000000000032 : ℝ)
      ≤ (5 - 18 * t ^ 2 + (t ^ 2) ^ 2 + 72 * (ep * c ^ 2) - 58 * ep)
        * A ^ 5 / 120 := by
    nlinarith only [mul_le_mul
      (by linarith only [hc5h] :
        (17.03:ℝ) ≤ -(5 - 18 * t ^ 2 + (t ^ 2) ^ 2 + 72 * (ep * c ^ 2) - 58 * ep))
      (by linarith only [hA5h] : (0.00000000002276:ℝ) ≤ -(A ^ 5))
      (by norm_num : (0:ℝ) ≤ 0.00000000002276)
      (by linarith only [hc5h] :
        (0:ℝ) ≤ -(5 - 18 * t ^ 2 + (t ^ 2) ^ 2 + 72 * (ep * c ^ 2) - 58 * ep))]
  have ht5h : (5 - 18 * t ^ 2 + (t ^ 2) ^ 2 + 72 * (ep * c ^ 2) - 58 * ep)
      * A ^ 5 / 120 ≤ 0.0000000000033 := by
    nlinarith only [mul_le_mul
      (by linarith only [hc5l] :
        -(5 - 18 * t ^ 2 + (t ^ 2) ^ 2 + 72 * (ep * c ^ 2) - 58 * ep) ≤ 17.06)
      (by linarith only [hA5l] : -(A ^ 5) ≤ 0.0000000000228)
      (by linarith only [hA5h] : (0:ℝ) ≤ -(A ^ 5))
      (by norm_num : (0:ℝ) ≤ 17.06)]
  have hBl : (-0.0074392 : ℝ)
      ≤ A + (1 - t ^ 2 + ep * c ^ 2) * A ^ 3 / 6
        + (5 - 18 * t ^ 2 + (t ^ 2) ^ 2 + 72 * (ep * c ^ 2) - 58 * ep)
          * A ^ 5 / 120 := by
    linarith only [hAl, ht3l, ht5l]
  have hBh : A + (1 - t ^ 2 + ep * c ^ 2) * A ^ 3 / 6
      + (5 - 18 * t ^ 2 + (t ^ 2) ^ 2 + 72 * (ep * c ^ 2) - 58 * ep)
        * A ^ 5 / 120 ≤ -0.0074384 := by
    linarith only [hAh, ht3h, ht5h]
  have hkNl : (6387717 : ℝ) ≤ 0.9996 * N := by linarith only [hNl]
  have hkNh : 0.9996 * N ≤ 6387725 := by linarith only [hNh]
  have heastl : (-47520 : ℝ)
      ≤ 0.9996 * N * (A + (1 - t ^ 2 + ep * c ^ 2) * A ^ 3 / 6
        + (5 - 18 * t ^ 2 + (t ^ 2) ^ 2 + 72 * (ep * c ^ 2) - 58 * ep)
          * A ^ 5 / 120) := by
    nlinarith only [mul_le_mul hkNh
      (by linarith only [hBl] : -(A + (1 - t ^ 2 + ep * c ^ 2) * A ^ 3 / 6
        + (5 - 18 * t ^ 2 + (t ^ 2) ^ 2 + 72 * (ep * c ^ 2) - 58 * ep)
          * A ^ 5 / 120) ≤ 0.0074392)
      (by linarith only [hBh] : (0:ℝ) ≤ -(A + (1 - t ^ 2 + ep * c ^ 2) * A ^ 3 / 6
        + (5 - 18 * t ^ 2 + (t ^ 2) ^ 2 + 72 * (ep * c ^ 2) - 58 * ep)
          * A ^ 5 / 120))
      (by norm_num : (0:ℝ) ≤ 6387725)]
  have heasth : 0.9996 * N * (A + (1 - t ^ 2 + ep * c ^ 2) * A ^ 3 / 6
      + (5 - 18 * t ^ 2 + (t ^ 2) ^ 2 + 72 * (ep * c ^ 2) - 58 * ep)
        * A ^ 5 / 120) ≤ -47514 := by
    nlinarith only [mul_le_mul hkNl
      (by linarith only [hBh] : (0.0074384:ℝ)
        ≤ -(A + (1 - t ^ 2 + ep * c ^ 2) * A ^ 3 / 6
          + (5 - 18 * t ^ 2 + (t ^ 2) ^ 2 + 72 * (ep * c ^ 2) - 58 * ep)
            * A ^ 5 / 120))
      (by norm_num : (0:ℝ) ≤ 0.0074384)
      (by linarith only [hkNl] : (0:ℝ) ≤ 0.9996 * N)]
  have hNtl : (7313700 : ℝ) ≤ N * t := by
    nlinarith only [mul_le_mul hNl (by linarith only [htl] : (1.14452:ℝ) ≤ t)
      (by norm_num : (0:ℝ) ≤ 1.14452) (by linarith only [hNl] : (0:ℝ) ≤ N)]
  have hNth : N * t ≤ 7314600 := by
    nlinarith only [mul_le_mul hNh (by linarith only [hth] : t ≤ 1.14463)
      (by linarith only [htl] : (0:ℝ) ≤ t) (by norm_num : (0:ℝ) ≤ 6390281)]
  have hc4l : (3.71 : ℝ)
      ≤ 5 - t ^ 2 + 9 * (ep * c ^ 2) + 4 * (ep * c ^ 2) ^ 2 := by
    linarith only [hT2h, hCl, hCsql]
  have hc4h : 5 - t ^ 2 + 9 * (ep * c ^ 2) + 4 * (ep * c ^ 2) ^ 2 ≤ 3.72 := by
    linarith only [hT2l, hCh, hCsqh]
  have ht4l : (0.00000000047 : ℝ)
      ≤ (5 - t ^ 2 + 9 * (ep * c ^ 2) + 4 * (ep * c ^ 2) ^ 2) * A ^ 4 / 24 := by
    nlinarith only [mul_le_mul hc4l hA4l (by norm_num : (0:ℝ) ≤ 0.0000000030615)
      (by linarith only [hc4l] :
        (0:ℝ) ≤ 5 - t ^ 2 + 9 * (ep * c ^ 2) + 4 * (ep * c ^ 2) ^ 2)]
  have ht4h : (5 - t ^ 2 + 9 * (ep * c ^ 2) + 4 * (ep * c ^ 2) ^ 2) * A ^ 4 / 24
      ≤ 0.00000000048 := by
    nlinarith only [mul_le_mul hc4h hA4h
      (by linarith only [hA4l] : (0:ℝ) ≤ A ^ 4) (by norm_num : (0:ℝ) ≤ 3.72)]
  have hc6l : (-13.76 : ℝ)
      ≤ 61 - 58 * t ^ 2 + (t ^ 2) ^ 2 + 600 * (ep * c ^ 2) - 330 * ep := by
    linarith only [hT2h, hT4l, hCl, heph]
  have hc6h : 61 - 58 * t ^ 2 + (t ^ 2) ^ 2 + 600 * (ep * c ^ 2) - 330 * ep
      ≤ -13.71 := by
    linarith only [hT2l, hT4h, hCh, hepl]
  have ht6l : (-0.000000000000004 : ℝ)
      ≤ (61 - 58 * t ^ 2 + (t ^ 2) ^ 2 + 600 * (ep * c ^ 2) - 330 * ep)
        * A ^ 6 / 720 := by
    nlinarith only [mul_le_mul
      (by linarith only [hc6l] :
        -(61 - 58 * t ^ 2 + (t ^ 2) ^ 2 + 600 * (ep * c ^ 2) - 330 * ep) ≤ 13.76)
      hA6h (by linarith only [hA6l] : (0:ℝ) ≤ A ^ 6)
      (by norm_num : (0:ℝ) ≤ 13.76)]
  have ht6h : (61 - 58 * t ^ 2 + (t ^ 2) ^ 2 + 600 * (ep * c ^ 2) - 330 * ep)
      * A ^ 6 / 720 ≤ 0 := by
    nlinarith only [mul_nonneg
      (by linarith only [hc6h] :
        (0:ℝ) ≤ -(61 - 58 * t ^ 2 + (t ^ 2) ^ 2 + 600 * (ep * c ^ 2) - 330 * ep))
      (by linarith only [hA6l] : (0:ℝ) ≤ A ^ 6)]
  have hSUMl : (0.0000276660 : ℝ)
      ≤ A ^ 2 / 2
        + (5 - t ^ 2 + 9 * (ep * c ^ 2) + 4 * (ep * c ^ 2) ^ 2) * A ^ 4 / 24
        + (61 - 58 * t ^ 2 + (t ^ 2) ^ 2 + 600 * (ep * c ^ 2) - 330 * ep)
          * A ^ 6 / 720 := by
    linarith only [hA2l, ht4l, ht6l]
  have hSUMh : A ^ 2 / 2
      + (5 - t ^ 2 + 9 * (ep * c ^ 2) + 4 * (ep * c ^ 2) ^ 2) * A ^ 4 / 24
      + (61 - 58 * t ^ 2 + (t ^ 2) ^ 2 + 600 * (ep * c ^ 2) - 330 * ep)
        * A ^ 6 / 720 ≤ 0.0000276714 := by
    linarith only [hA2h, ht4h, ht6h]
  have hNtSl : (202.33 : ℝ)
      ≤ N * t * (A ^ 2 / 2
        + (5 - t ^ 2 + 9 * (ep * c ^ 2) + 4 * (ep * c ^ 2) ^ 2) * A ^ 4 / 24
        + (61 - 58 * t ^ 2 + (t ^ 2) ^ 2 + 600 * (ep * c ^ 2) - 330 * ep)
          * A ^ 6 / 720) := by
    nlinarith only [mul_le_mul hNtl hSUMl (by norm_num : (0:ℝ) ≤ 0.0000276660)
      (by linarith only [hNtl] : (0:ℝ) ≤ N * t)]
  have hNtSh : N * t * (A ^ 2 / 2
      + (5 - t ^ 2 + 9 * (ep * c ^ 2) + 4 * (ep * c ^ 2) ^ 2) * A ^ 4 / 24
      + (61 - 58 * t ^ 2 + (t ^ 2) ^ 2 + 600 * (ep * c ^ 2) - 330 * ep)
        * A ^ 6 / 720) ≤ 202.42 := by
    nlinarith only [mul_le_mul hNth hSUMh
      (by linarith only [hSUMl] : (0:ℝ) ≤ A ^ 2 / 2
        + (5 - t ^ 2 + 9 * (ep * c ^ 2) + 4 * (ep * c ^ 2) ^ 2) * A ^ 4 / 24
        + (61 - 58 * t ^ 2 + (t ^ 2) ^ 2 + 600 * (ep * c ^ 2) - 330 * ep)
          * A ^ 6 / 720) (by norm_num : (0:ℝ) ≤ 7314600)]
  have hm1l : (0.8512793 : ℝ)
      ≤ (1 - X / 4 - 3 * X ^ 2 / 64 - 5 * X ^ 3 / 256) * L := by
    nlinarith only [mul_le_mul hco0l hLl (by norm_num : (0:ℝ) ≤ 0.8527083)
      (by linarith only [hco0l] : (0:ℝ) ≤ 1 - X / 4 - 3 * X ^ 2 / 64 - 5 * X ^ 3 / 256)]
  have hm1h : (1 - X / 4 - 3 * X ^ 2 / 64 - 5 * X ^ 3 / 256) * L ≤ 0.8512799 := by
    nlinarith only [mul_le_mul hco0h hLh hL0 (by norm_num : (0:ℝ) ≤ 0.99832430)]
  have hm2l : (0.0024917 : ℝ)
      ≤ (3 * X / 8 + 3 * X ^ 2 / 32 + 45 * X ^ 3 / 1024) * sin (2 * L) := by
    nlinarith only [mul_le_mul hco1l h2l (by norm_num : (0:ℝ) ≤ 0.990920)
      (by linarith only [hco1l] : (0:ℝ) ≤ 3 * X / 8 + 3 * X ^ 2 / 32 + 45 * X ^ 3 / 1024)]
  have hm2h : (3 * X / 8 + 3 * X ^ 2 / 32 + 45 * X ^ 3 / 1024) * sin (2 * L)
      ≤ 0.0024920 := by
    nlinarith only [mul_le_mul hco1h h2h
      (by linarith only [h2l] : (0:ℝ) ≤ sin (2 * L))
      (by norm_num : (0:ℝ) ≤ 0.00251461)]
  have hm3l : (-0.00000070285 : ℝ)
      ≤ (15 * X ^ 2 / 256 + 45 * X ^ 3 / 1024) * sin (4 * L) := by
    nlinarith only [mul_le_mul hco2h
      (by linarith only [h4l] : -sin (4 * L) ≤ 0.26630)
      (by linarith only [h4h] : (0:ℝ) ≤ -sin (4 * L))
      (by norm_num : (0:ℝ) ≤ 0.0000026391)]
  have hm3h : (15 * X ^ 2 / 256 + 45 * X ^ 3 / 1024) * sin (4 * L)
      ≤ -0.0000007 := by
    nlinarith only [mul_le_mul hco2l
      (by linarith only [h4h] : (0.26570:ℝ) ≤ -sin (4 * L))
      (by norm_num : (0:ℝ) ≤ 0.26570)
      (by linarith only [hco2l] : (0:ℝ) ≤ 15 * X ^ 2 / 256 + 45 * X ^ 3 / 1024)]
  have hm4l : (-0.0000000032 : ℝ) ≤ 35 * X ^ 3 / 3072 * sin (6 * L) := by
    nlinarith only [mul_le_mul hco3h
      (by linarith only [h6l] : -sin (6 * L) ≤ 0.91990)
      (by linarith only [h6h] : (0:ℝ) ≤ -sin (6 * L))
      (by norm_num : (0:ℝ) ≤ 0.0000000034181)]
  have hm4h : 35 * X ^ 3 / 3072 * sin (6 * L) ≤ -0.0000000031 := by
    nlinarith only [mul_le_mul hco3l
      (by linarith only [h6h] : (0.91700:ℝ) ≤ -sin (6 * L))
      (by norm_num : (0:ℝ) ≤ 0.91700)
      (by linarith only [hco3l] : (0:ℝ) ≤ 35 * X ^ 3 / 3072)]
  have hMl : (5413676 : ℝ)
      ≤ 6378137.0 * ((1 - X / 4 - 3 * X ^ 2 / 64 - 5 * X ^ 3 / 256) * L
        - (3 * X / 8 + 3 * X ^ 2 / 32 + 45 * X ^ 3 / 1024) * sin (2 * L)
        + (15 * X ^ 2 / 256 + 45 * X ^ 3 / 1024) * sin (4 * L)
        - 35 * X ^ 3 / 3072 * sin (6 * L)) := by
    linarith only [hm1l, hm2h, hm3l, hm4h]
  have hMh : 6378137.0 * ((1 - X / 4 - 3 * X ^ 2 / 64 - 5 * X ^ 3 / 256) * L
      - (3 * X / 8 + 3 * X ^ 2 / 32 + 45 * X ^ 3 / 1024) * sin (2 * L)
      + (15 * X ^ 2 / 256 + 45 * X ^ 3 / 1024) * sin (4 * L)
      - 35 * X ^ 3 / 3072 * sin (6 * L)) ≤ 5413684 := by
    linarith only [hm1h, hm2l, hm3h, hm4l]
  refine ⟨by linarith only [heastl], by linarith only [heasth], ?_, ?_⟩
  · linarith only [hMl, hNtSl]
  · linarith only [hMh, hNtSh]

/-- Claim C7 fails as stated: at Paris (48.8566, 2.3522) the easting is about
452482.5 m, more than 4 km from the claimed 448,000 m, and the northing is
about 5,411,717 m, more than 700 m from the claimed 5,411,000 m. -/
theorem C7_counterexample :
    500 < |(lat_lon_to_utm 48.8566 2.3522).easting - 448000|
      ∧ 500 < |(lat_lon_to_utm 48.8566 2.3522).northing - 5411000| := by
  obtain ⟨he1, he2, hn1, hn2⟩ := paris_utm_core
  constructor
  · rw [lt_abs]; left; linarith
  · rw [lt_abs]; left; linarith

/-- Amended C7: `lat_lon_to_utm 48.8566 2.3522` (Paris) yields zone 31 and
band letter U, but the easting is within 500 m of 452,500 m (not 448,000 m)
and the northing is within 500 m of 5,411,700 m (not 5,411,000 m). -/
theorem C7_paris_utm :
    (lat_lon_to_utm 48.8566 2.3522).zone = 31
      ∧ (lat_lon_to_utm 48.8566 2.3522).letter = 'U'
      ∧ |(lat_lon_to_utm 48.8566 2.3522).easting - 452500| ≤ 500
      ∧ |(lat_lon_to_utm 48.8566 2.3522).northing - 5411700| ≤ 500 := by
  obtain ⟨he1, he2, hn1, hn2⟩ := paris_utm_core
  refine ⟨?_, ?_, ?_, ?_⟩
  · show utmZone 48.8566 2.3522 = 31
    exact paris_zone
  · show utmBandLetter 48.8566 = 'U'
    exact paris_letter
  · rw [abs_le]; constructor <;> linarith
  · rw [abs_le]; constructor <;> linarith

/- ------------------------------------------------------------------ -/
/- Claim C1: the directionality filter and its wrap bug.              -/
/- ------------------------------------------------------------------ -/

/-- Station 1 of the wrap-bug scenario: near the north pole, azimuth 359. -/
def stP : Station := ⟨89.9, 0, 359, true⟩

/-- Station 2 of the wrap-bug scenario: at (10, -90), azimuth 0 (due north). -/
def stQ : Station := ⟨10, -90, 0, true⟩

theorem c1_sin_a_bounds :
    (0.0017452 : ℝ) ≤ sin (π / 1800) ∧ sin (π / 1800) ≤ 0.0017454 := by
  have hpl := Real.pi_gt_3141592
  have hph := Real.pi_lt_3141593
  have hal : (0.0017453 : ℝ) ≤ π / 1800 := by linarith
  have hah : π / 1800 ≤ 0.0017454 := by linarith
  have ha0 : (0 : ℝ) < π / 1800 := by linarith
  constructor
  · have hb := Real.sin_bound (show |π / 1800| ≤ 1 by rw [abs_of_pos ha0]; linarith)
    rw [abs_of_pos ha0] at hb
    have hb' := abs_le.mp hb
    have h2 : (π / 1800) ^ 2 ≤ 0.000004 := by
      nlinarith only [mul_nonneg (by linarith : (0:ℝ) ≤ 0.0017454 - π / 1800)
        (by linarith : (0:ℝ) ≤ 0.0017454 + π / 1800)]
    have h3 : (π / 1800) ^ 3 ≤ 0.00000001 := by
      nlinarith only [mul_le_mul h2 hah (by linarith : (0:ℝ) ≤ π / 1800)
        (by norm_num : (0:ℝ) ≤ 0.000004)]
    have h4 : (π / 1800) ^ 4 ≤ 0.00000000002 := by
      nlinarith only [mul_nonneg (by linarith : (0:ℝ) ≤ 0.000004 - (π / 1800) ^ 2)
        (by positivity : (0:ℝ) ≤ 0.000004 + (π / 1800) ^ 2)]
    have h30 : (0 : ℝ) ≤ (π / 1800) ^ 3 := by positivity
    have h40 : (0 : ℝ) ≤ (π / 1800) ^ 4 := by positivity
    linarith [hb'.1]
  · exact le_of_lt (lt_of_lt_of_le (Real.sin_lt ha0) hah)

theorem c1_cos_a_bounds :
    (0.999998 : ℝ) ≤ cos (π / 1800) ∧ cos (π / 1800) ≤ 1 := by
  have hpl := Real.pi_gt_3141592
  have hph := Real.pi_lt_3141593
  have hal : (0.0017453 : ℝ) ≤ π / 1800 := by linarith
  have hah : π / 1800 ≤ 0.0017454 := by linarith
  have ha0 : (0 : ℝ) < π / 1800 := by linarith
  constructor
  · have hb := Real.cos_bound (show |π / 1800| ≤ 1 by rw [abs_of_pos ha0]; linarith)
    rw [abs_of_pos ha0] at hb
    have hb' := abs_le.mp hb
    have h2 : (π / 1800) ^ 2 ≤ 0.0000031 := by
      nlinarith only [mul_nonneg (by linarith : (0:ℝ) ≤ 0.0017454 - π / 1800)
        (by linarith : (0:ℝ) ≤ 0.0017454 + π / 1800)]
    have h4 : (π / 1800) ^ 4 ≤ 0.00000000002 := by
      nlinarith only [mul_nonneg (by linarith : (0:ℝ) ≤ 0.0000031 - (π / 1800) ^ 2)
        (by positivity : (0:ℝ) ≤ 0.0000031 + (π / 1800) ^ 2)]
    have h40 : (0 : ℝ) ≤ (π / 1800) ^ 4 := by positivity
    linarith [hb'.1]
  · exact Real.cos_le_one _

theorem c1_sin_b_bounds :
    (0.017452 : ℝ) ≤ sin (π / 180) ∧ sin (π / 180) ≤ 0.0174534 := by
  have hpl := Real.pi_gt_3141592
  have hph := Real.pi_lt_3141593
  have hal : (0.0174532 : ℝ) ≤ π / 180 := by linarith
  have hah : π / 180 ≤ 0.0174534 := by linarith
  have ha0 : (0 : ℝ) < π / 180 := by linarith
  constructor
  · have hb := Real.sin_bound (show |π / 180| ≤ 1 by rw [abs_of_pos ha0]; linarith)
    rw [abs_of_pos ha0] at hb
    have hb' := abs_le.mp hb
    have h2 : (π / 180) ^ 2 ≤ 0.000305 := by
      nlinarith only [mul_nonneg (by linarith : (0:ℝ) ≤ 0.0174534 - π / 180)
        (by linarith : (0:ℝ) ≤ 0.0174534 + π / 180)]
    have h3 : (π / 180) ^ 3 ≤ 0.0000054 := by
      nlinarith only [mul_le_mul h2 hah (by linarith : (0:ℝ) ≤ π / 180)
        (by norm_num : (0:ℝ) ≤ 0.000305)]
    have h4 : (π / 180) ^ 4 ≤ 0.0000001 := by
      nlinarith only [mul_nonneg (by linarith : (0:ℝ) ≤ 0.000305 - (π / 180) ^ 2)
        (by positivity : (0:ℝ) ≤ 0.000305 + (π / 180) ^ 2)]
    have h30 : (0 : ℝ) ≤ (π / 180) ^ 3 := by positivity
    have h40 : (0 : ℝ) ≤ (π / 180) ^ 4 := by positivity
    linarith [hb'.1]
  · exact le_of_lt (lt_of_lt_of_le (Real.sin_lt ha0) hah)

theorem c1_cos_b_bounds :
    (0.999847 : ℝ) ≤ cos (π / 180) ∧ cos (π / 180) ≤ 1 := by
  have hpl := Real.pi_gt_3141592
  have hph := Real.pi_lt_3141593
  have hal : (0.0174532 : ℝ) ≤ π / 180 := by linarith
  have hah : π / 180 ≤ 0.0174534 := by linarith
  have ha0 : (0 : ℝ) < π / 180 := by linarith
  constructor
  · have hb := Real.cos_bound (show |π / 180| ≤ 1 by rw [abs_of_pos ha0]; linarith)
    rw [abs_of_pos ha0] at hb
    have hb' := abs_le.mp hb
    have h2 : (π / 180) ^ 2 ≤ 0.000305 := by
      nlinarith only [mul_nonneg (by linarith : (0:ℝ) ≤ 0.0174534 - π / 180)
        (by linarith : (0:ℝ) ≤ 0.0174534 + π / 180)]
    have h4 : (π / 180) ^ 4 ≤ 0.0000001 := by
      nlinarith only [mul_nonneg (by linarith : (0:ℝ) ≤ 0.000305 - (π / 180) ^ 2)
        (by positivity : (0:ℝ) ≤ 0.000305 + (π / 180) ^ 2)]
    have h40 : (0 : ℝ) ≤ (π / 180) ^ 4 := by positivity
    linarith [hb'.1]
  · exact Real.cos_le_one _

theorem c1_sin_d_bounds :
    (0.684 : ℝ) ≤ sin (5000 / 6371.0) ∧ sin (5000 / 6371.0) ≤ 0.7241 := by
  have hb := Real.sin_bound
    (show |(5000 / 6371.0 : ℝ)| ≤ 1 by rw [abs_of_pos (by norm_num)]; norm_num)
  rw [abs_of_pos (by norm_num : (0:ℝ) < 5000 / 6371.0)] at hb
  have hb' := abs_le.mp hb
  constructor <;> [linarith [hb'.1]; linarith [hb'.2]]

theorem c1_cos_d_bounds :
    (0.672 : ℝ) ≤ cos (5000 / 6371.0) ∧ cos (5000 / 6371.0) ≤ 0.712 := by
  have hb := Real.cos_bound
    (show |(5000 / 6371.0 : ℝ)| ≤ 1 by rw [abs_of_pos (by norm_num)]; norm_num)
  rw [abs_of_pos (by norm_num : (0:ℝ) < 5000 / 6371.0)] at hb
  have hb' := abs_le.mp hb
  constructor <;> [linarith [hb'.1]; linarith [hb'.2]]

set_option maxHeartbeats 1000000 in
theorem c1_core_facts :
    (0 < cos (π / 1800) * cos (5000 / 6371.0)
        + sin (π / 1800) * sin (5000 / 6371.0) * cos (π / 180)
      ∧ cos (π / 1800) * cos (5000 / 6371.0)
        + sin (π / 1800) * sin (5000 / 6371.0) * cos (π / 180) ≤ 0.714)
    ∧ -sin (π / 180) * sin (5000 / 6371.0) * sin (π / 1800) < 0
    ∧ cos (5000 / 6371.0) - cos (π / 1800) * (cos (π / 1800) * cos (5000 / 6371.0)
        + sin (π / 1800) * sin (5000 / 6371.0) * cos (π / 180)) < 0
    ∧ (0 < -sin (π / 180) * sin (5000 / 6371.0) * sin (π / 1800)
        / (cos (5000 / 6371.0) - cos (π / 1800) * (cos (π / 1800) * cos (5000 / 6371.0)
          + sin (π / 1800) * sin (5000 / 6371.0) * cos (π / 180)))
      ∧ -sin (π / 180) * sin (5000 / 6371.0) * sin (π / 1800)
        / (cos (5000 / 6371.0) - cos (π / 1800) * (cos (π / 1800) * cos (5000 / 6371.0)
          + sin (π / 1800) * sin (5000 / 6371.0) * cos (π / 180))) ≤ 0.0697) := by
  obtain ⟨hsal, hsah⟩ := c1_sin_a_bounds
  obtain ⟨hcal, hcah⟩ := c1_cos_a_bounds
  obtain ⟨hsbl, hsbh⟩ := c1_sin_b_bounds
  obtain ⟨hcbl, hcbh⟩ := c1_cos_b_bounds
  obtain ⟨hsdl, hsdh⟩ := c1_sin_d_bounds
  obtain ⟨hcdl, hcdh⟩ := c1_cos_d_bounds
  have hf1 : cos (π / 1800) * cos (5000 / 6371.0) ≤ 0.712 := by
    nlinarith only [mul_le_mul hcah hcdh (by linarith : (0:ℝ) ≤ cos (5000 / 6371.0))
      (by norm_num : (0:ℝ) ≤ 1)]
  have hf2 : sin (π / 1800) * sin (5000 / 6371.0) ≤ 0.00126403 := by
    nlinarith only [mul_le_mul hsah hsdh (by linarith : (0:ℝ) ≤ sin (5000 / 6371.0))
      (by norm_num : (0:ℝ) ≤ 0.0017454)]
  have hf3 : sin (π / 1800) * sin (5000 / 6371.0) * cos (π / 180) ≤ 0.00126403 := by
    nlinarith only [mul_le_mul hf2 hcbh (by linarith : (0:ℝ) ≤ cos (π / 180))
      (by norm_num : (0:ℝ) ≤ 0.00126403)]
  have hf4 : (0.67199 : ℝ) ≤ cos (π / 1800) * cos (5000 / 6371.0) := by
    nlinarith only [mul_le_mul hcal hcdl (by norm_num : (0:ℝ) ≤ 0.672)
      (by linarith : (0:ℝ) ≤ cos (π / 1800))]
  have hf5 : (0 : ℝ) ≤ sin (π / 1800) * sin (5000 / 6371.0) * cos (π / 180) := by
    nlinarith only [mul_nonneg (mul_nonneg (by linarith : (0:ℝ) ≤ sin (π / 1800))
      (by linarith : (0:ℝ) ≤ sin (5000 / 6371.0)))
      (by linarith : (0:ℝ) ≤ cos (π / 180))]
  have hS_lb : (0 : ℝ) < cos (π / 1800) * cos (5000 / 6371.0)
      + sin (π / 1800) * sin (5000 / 6371.0) * cos (π / 180) := by linarith
  have hS_ub : cos (π / 1800) * cos (5000 / 6371.0)
      + sin (π / 1800) * sin (5000 / 6371.0) * cos (π / 180) ≤ 0.714 := by linarith
  have hy : -sin (π / 180) * sin (5000 / 6371.0) * sin (π / 1800) < 0 := by
    nlinarith only [mul_pos (mul_pos
      (by linarith : (0:ℝ) < sin (π / 180)) (by linarith : (0:ℝ) < sin (5000 / 6371.0)))
      (by linarith : (0:ℝ) < sin (π / 1800))]
  have hpyth := Real.sin_sq_add_cos_sq (π / 1800)
  have hfact : cos (5000 / 6371.0) - cos (π / 1800) * (cos (π / 1800) * cos (5000 / 6371.0)
      + sin (π / 1800) * sin (5000 / 6371.0) * cos (π / 180))
      = sin (π / 1800) * (sin (π / 1800) * cos (5000 / 6371.0)
        - cos (π / 1800) * sin (5000 / 6371.0) * cos (π / 180)) := by
    linear_combination (-cos (5000 / 6371.0)) * hpyth
  have hg1 : (0.683998 : ℝ) ≤ cos (π / 1800) * sin (5000 / 6371.0) := by
    nlinarith only [mul_le_mul hcal hsdl (by norm_num : (0:ℝ) ≤ 0.684)
      (by linarith : (0:ℝ) ≤ cos (π / 1800))]
  have hg2 : (0.683893 : ℝ) ≤ cos (π / 1800) * sin (5000 / 6371.0) * cos (π / 180) := by
    nlinarith only [mul_le_mul hg1 hcbl (by norm_num : (0:ℝ) ≤ 0.999847)
      (by linarith : (0:ℝ) ≤ cos (π / 1800) * sin (5000 / 6371.0))]
  have hg3 : sin (π / 1800) * cos (5000 / 6371.0) ≤ 0.00124273 := by
    nlinarith only [mul_le_mul hsah hcdh (by linarith : (0:ℝ) ≤ cos (5000 / 6371.0))
      (by norm_num : (0:ℝ) ≤ 0.0017454)]
  have hinner : sin (π / 1800) * cos (5000 / 6371.0)
      - cos (π / 1800) * sin (5000 / 6371.0) * cos (π / 180) < -0.68 := by linarith
  have hx : cos (5000 / 6371.0) - cos (π / 1800) * (cos (π / 1800) * cos (5000 / 6371.0)
      + sin (π / 1800) * sin (5000 / 6371.0) * cos (π / 180)) < 0 := by
    rw [hfact]
    exact mul_neg_of_pos_of_neg (by linarith) (by linarith)
  refine ⟨⟨hS_lb, hS_ub⟩, hy, hx, div_pos_of_neg_of_neg hy hx, ?_⟩
  rw [div_le_iff_of_neg hx]
  have hm1 : sin (π / 180) * sin (5000 / 6371.0) ≤ 0.01264 := by
    nlinarith only [mul_le_mul hsbh hsdh (by linarith : (0:ℝ) ≤ sin (5000 / 6371.0))
      (by norm_num : (0:ℝ) ≤ 0.0174534)]
  have hm2 : sin (π / 180) * sin (5000 / 6371.0) * sin (π / 1800)
      ≤ 0.01264 * sin (π / 1800) :=
    mul_le_mul_of_nonneg_right hm1 (by linarith)
  have hm3 : (0.68 : ℝ) * sin (π / 1800)
      ≤ (cos (π / 1800) * sin (5000 / 6371.0) * cos (π / 180)
        - sin (π / 1800) * cos (5000 / 6371.0)) * sin (π / 1800) :=
    mul_le_mul_of_nonneg_right (by linarith) (by linarith)
  nlinarith only [hm2, hm3, hfact, hsal]

set_option maxHeartbeats 1000000 in
theorem c1_endpoint1_eval :
    calc_endpoint_haversine 89.9 0 359 5000
      = (degrees (arcsin (cos (π / 1800) * cos (5000 / 6371.0)
            + sin (π / 1800) * sin (5000 / 6371.0) * cos (π / 180))),
         degrees (arctan (-sin (π / 180) * sin (5000 / 6371.0) * sin (π / 1800)
              / (cos (5000 / 6371.0) - cos (π / 1800)
                * (cos (π / 1800) * cos (5000 / 6371.0)
                  + sin (π / 1800) * sin (5000 / 6371.0) * cos (π / 180))))
            - π)) := by
  obtain ⟨⟨hS_lb, hS_ub⟩, hy, hx, hr⟩ := c1_core_facts
  have h89 : radians 89.9 = π / 2 - π / 1800 := by unfold radians; ring
  have h359 : radians 359 = 2 * π - π / 180 := by unfold radians; ring
  have h0 : radians (0 : ℝ) = 0 := by unfold radians; ring
  unfold calc_endpoint_haversine
  rw [h89, h359, h0, Real.sin_pi_div_two_sub, Real.cos_pi_div_two_sub,
    Real.cos_two_pi_sub, Real.sin_two_pi_sub]
  rw [Real.sin_arcsin (by linarith) (by linarith)]
  rw [atan2_of_neg_neg hy hx, zero_add]

theorem c1_endpoint2_eval :
    calc_endpoint_haversine 10 (-90) 0 5000
      = (degrees (π / 18 + 5000 / 6371.0), -90) := by
  obtain ⟨hcdl, hcdh⟩ := c1_cos_d_bounds
  have hpl := Real.pi_gt_3141592
  have hph := Real.pi_lt_3141593
  have h10 : radians 10 = π / 18 := by unfold radians; ring
  have h0 : radians (0 : ℝ) = 0 := by unfold radians; ring
  unfold calc_endpoint_haversine
  rw [h10, h0, Real.sin_zero, Real.cos_zero, mul_one, zero_mul, zero_mul]
  rw [← Real.sin_add]
  rw [Real.arcsin_sin (by linarith) (by linarith)]
  have hsin18pos : (0 : ℝ) < sin (π / 18) :=
    Real.sin_pos_of_pos_of_lt_pi (by linarith) (by linarith)
  have hsin18ub : sin (π / 18) ≤ 0.1746 := by
    have := Real.sin_lt (show (0:ℝ) < π / 18 by linarith)
    linarith
  have hsle := Real.sin_le_one (π / 18 + 5000 / 6371.0)
  have hprod : sin (π / 18) * sin (π / 18 + 5000 / 6371.0) ≤ sin (π / 18) * 1 :=
    mul_le_mul_of_nonneg_left hsle (le_of_lt hsin18pos)
  have hx2 : (0 : ℝ) < cos (5000 / 6371.0)
      - sin (π / 18) * sin (π / 18 + 5000 / 6371.0) := by nlinarith only [hprod, hsin18ub, hcdl]
  rw [atan2_zero_of_pos hx2, add_zero, degrees_radians]

theorem c1_e1lon_bounds :
    degrees (arctan (-sin (π / 180) * sin (5000 / 6371.0) * sin (π / 1800)
        / (cos (5000 / 6371.0) - cos (π / 1800) * (cos (π / 1800) * cos (5000 / 6371.0)
          + sin (π / 1800) * sin (5000 / 6371.0) * cos (π / 180)))) - π) ≤ -176
    ∧ -180 < degrees (arctan (-sin (π / 180) * sin (5000 / 6371.0) * sin (π / 1800)
        / (cos (5000 / 6371.0) - cos (π / 1800) * (cos (π / 1800) * cos (5000 / 6371.0)
          + sin (π / 1800) * sin (5000 / 6371.0) * cos (π / 180)))) - π) := by
  obtain ⟨-, -, -, hr_pos, hr_ub⟩ := c1_core_facts
  have hpl := Real.pi_gt_3141592
  have hph := Real.pi_lt_3141593
  have harc_pos : (0 : ℝ) < arctan (-sin (π / 180) * sin (5000 / 6371.0) * sin (π / 1800)
      / (cos (5000 / 6371.0) - cos (π / 1800) * (cos (π / 1800) * cos (5000 / 6371.0)
        + sin (π / 1800) * sin (5000 / 6371.0) * cos (π / 180)))) := by
    have h := Real.arctan_strictMono hr_pos
    rwa [Real.arctan_zero] at h
  have hc45l : (0.0698131 : ℝ) ≤ π / 45 := by linarith
  have hc45h : π / 45 ≤ 0.0698132 := by linarith
  have hc45pos : (0 : ℝ) < π / 45 := by linarith
  have hsin45 : (0.0697 : ℝ) ≤ sin (π / 45) := by
    have hb := Real.sin_bound (show |π / 45| ≤ 1 by rw [abs_of_pos hc45pos]; linarith)
    rw [abs_of_pos hc45pos] at hb
    have hb' := abs_le.mp hb
    have h2 : (π / 45) ^ 2 ≤ 0.0048739 := by
      nlinarith only [mul_nonneg (by linarith : (0:ℝ) ≤ 0.0698132 - π / 45)
        (by linarith : (0:ℝ) ≤ 0.0698132 + π / 45)]
    have h3 : (π / 45) ^ 3 ≤ 0.0003403 := by
      nlinarith only [mul_le_mul h2 hc45h (by linarith : (0:ℝ) ≤ π / 45)
        (by norm_num : (0:ℝ) ≤ 0.0048739)]
    have h4 : (π / 45) ^ 4 ≤ 0.0000238 := by
      nlinarith only [mul_nonneg (by linarith : (0:ℝ) ≤ 0.0048739 - (π / 45) ^ 2)
        (by positivity : (0:ℝ) ≤ 0.0048739 + (π / 45) ^ 2)]
    have h30 : (0 : ℝ) ≤ (π / 45) ^ 3 := by positivity
    have h40 : (0 : ℝ) ≤ (π / 45) ^ 4 := by positivity
    linarith [hb'.1]
  have hcos45pos : (0 : ℝ) < cos (π / 45) :=
    Real.cos_pos_of_mem_Ioo ⟨by linarith, by linarith⟩
  have htan45 : (0.0697 : ℝ) ≤ tan (π / 45) := by
    rw [Real.tan_eq_sin_div_cos, le_div_iff hcos45pos]
    nlinarith only [hsin45, hcos45pos, Real.cos_le_one (π / 45),
      mul_le_mul_of_nonneg_left (Real.cos_le_one (π / 45))
        (by norm_num : (0:ℝ) ≤ 0.0697)]
  have harc_ub : arctan (-sin (π / 180) * sin (5000 / 6371.0) * sin (π / 1800)
      / (cos (5000 / 6371.0) - cos (π / 1800) * (cos (π / 1800) * cos (5000 / 6371.0)
        + sin (π / 1800) * sin (5000 / 6371.0) * cos (π / 180)))) ≤ π / 45 := by
    have hmono := Real.arctan_strictMono.monotone
      (show -sin (π / 180) * sin (5000 / 6371.0) * sin (π / 1800)
          / (cos (5000 / 6371.0) - cos (π / 1800) * (cos (π / 1800) * cos (5000 / 6371.0)
            + sin (π / 1800) * sin (5000 / 6371.0) * cos (π / 180))) ≤ tan (π / 45)
        by linarith)
    have htanval : arctan (tan (π / 45)) = π / 45 :=
      Real.arctan_tan (by linarith) (by linarith)
    rw [htanval] at hmono
    exact hmono
  constructor
  · have h1 := degrees_le_degrees (show arctan (-sin (π / 180) * sin (5000 / 6371.0)
        * sin (π / 1800) / (cos (5000 / 6371.0) - cos (π / 1800)
          * (cos (π / 1800) * cos (5000 / 6371.0)
            + sin (π / 1800) * sin (5000 / 6371.0) * cos (π / 180)))) - π
        ≤ π / 45 - π by linarith)
    have h2 : degrees (π / 45 - π) = -176 := by
      unfold degrees
      have hpi0 : π ≠ 0 := Real.pi_ne_zero
      field_simp
      ring
    rw [h2] at h1
    exact h1
  · have h1 := degrees_lt_degrees (show -π < arctan (-sin (π / 180)
        * sin (5000 / 6371.0) * sin (π / 1800) / (cos (5000 / 6371.0) - cos (π / 1800)
          * (cos (π / 1800) * cos (5000 / 6371.0)
            + sin (π / 1800) * sin (5000 / 6371.0) * cos (π / 180)))) - π
        by linarith)
    have h2 : degrees (-π) = -180 := by
      unfold degrees
      have hpi0 : π ≠ 0 := Real.pi_ne_zero
      field_simp
      ring
    rw [h2] at h1
    exact h1

theorem c1_e1lat_bounds :
    0 < degrees (arcsin (cos (π / 1800) * cos (5000 / 6371.0)
        + sin (π / 1800) * sin (5000 / 6371.0) * cos (π / 180)))
    ∧ degrees (arcsin (cos (π / 1800) * cos (5000 / 6371.0)
        + sin (π / 1800) * sin (5000 / 6371.0) * cos (π / 180))) ≤ 53.9 := by
  obtain ⟨⟨hS_lb, hS_ub⟩, -, -, -⟩ := c1_core_facts
  have hpl := Real.pi_gt_3141592
  have hph := Real.pi_lt_3141593
  constructor
  · exact degrees_pos (Real.arcsin_pos.mpr hS_lb)
  · have hsin94 : (0.76 : ℝ) ≤ sin 0.94 := by
      have hb := Real.sin_bound (show |(0.94 : ℝ)| ≤ 1 by rw [abs_of_pos] <;> norm_num)
      rw [show |(0.94 : ℝ)| = 0.94 by rw [abs_of_pos] <;> norm_num] at hb
      have hb' := abs_le.mp hb
      linarith [hb'.1]
    have hmono : arcsin (cos (π / 1800) * cos (5000 / 6371.0)
        + sin (π / 1800) * sin (5000 / 6371.0) * cos (π / 180)) < arcsin (sin 0.94) := by
      apply Real.strictMonoOn_arcsin ?_ ?_ (by linarith)
      · constructor <;> linarith
      · constructor <;>
          [linarith [Real.neg_one_le_sin (0.94 : ℝ)]; linarith [Real.sin_le_one (0.94 : ℝ)]]
    have h94 : arcsin (sin 0.94) = 0.94 :=
      Real.arcsin_sin (by linarith) (by linarith)
    rw [h94] at hmono
    have h1 := degrees_le_degrees (le_of_lt hmono)
    have h2 : degrees (0.94 : ℝ) ≤ 53.9 := by
      unfold degrees
      rw [show (0.94 : ℝ) * (180 / π) = 169.2 / π from by ring]
      rw [div_le_iff Real.pi_pos]
      nlinarith
    linarith

theorem c1_e2lat_bound : (11 : ℝ) ≤ degrees (π / 18 + 5000 / 6371.0) := by
  have hadd : degrees (π / 18 + 5000 / 6371.0)
      = degrees (π / 18) + degrees (5000 / 6371.0) := by
    unfold degrees
    ring
  have h10 : degrees (π / 18) = 10 := by
    rw [show (π / 18 : ℝ) = radians 10 from by unfold radians; ring, degrees_radians]
  have hd1 : (1 : ℝ) ≤ degrees (5000 / 6371.0) := by
    unfold degrees
    rw [show (5000 / 6371.0 : ℝ) * (180 / π) = 900000 / 6371 / π from by ring]
    rw [le_div_iff Real.pi_pos]
    nlinarith [Real.pi_lt_3141593]
  linarith [hadd, h10, hd1]

theorem c1_line_eval (e1lon e1lat e2lat : ℝ) (h1 : e1lon ≤ -90) (h2 : 11 ≤ e2lat) :
    line_intersection (0, 89.9) (e1lon, e1lat) (-90, 10) (-90, e2lat)
      = some (-90, 89.9 - 90 / e1lon * (e1lat - 89.9)) := by
  unfold line_intersection
  dsimp only
  have hdneg : (0 - e1lon) * (10 - e2lat) - (89.9 - e1lat) * (-90 - -90) ≤ -90 := by
    nlinarith only [mul_nonneg (by linarith : (0:ℝ) ≤ -e1lon - 90)
      (by linarith : (0:ℝ) ≤ e2lat - 11), h1, h2]
  have hdne0 : (0 - e1lon) * (10 - e2lat) - (89.9 - e1lat) * (-90 - -90) ≠ 0 :=
    ne_of_lt (by linarith)
  have hne : e1lon ≠ 0 := by
    intro h
    rw [h] at h1
    norm_num at h1
  have h2ne : (10 : ℝ) - e2lat ≠ 0 := ne_of_lt (by linarith)
  rw [if_neg (show ¬(|(0 - e1lon) * (10 - e2lat) - (89.9 - e1lat) * (-90 - -90)| < 1e-10) by
    rw [abs_lt]
    push_neg
    intro h
    linarith)]
  refine congrArg some ?_
  rw [Prod.ext_iff]
  constructor
  · dsimp only
    field_simp
    ring
  · dsimp only
    field_simp
    ring

set_option maxHeartbeats 1000000 in
theorem c1_intersect_value :
    intersectPair stP stQ 5000
      = some (89.9 - 90 / degrees (arctan (-sin (π / 180) * sin (5000 / 6371.0)
            * sin (π / 1800) / (cos (5000 / 6371.0) - cos (π / 1800)
              * (cos (π / 1800) * cos (5000 / 6371.0)
                + sin (π / 1800) * sin (5000 / 6371.0) * cos (π / 180)))) - π)
          * (degrees (arcsin (cos (π / 1800) * cos (5000 / 6371.0)
              + sin (π / 1800) * sin (5000 / 6371.0) * cos (π / 180))) - 89.9),
         -90) := by
  obtain ⟨hlon_ub, hlon_lb⟩ := c1_e1lon_bounds
  obtain ⟨hlat_lb, hlat_ub⟩ := c1_e1lat_bounds
  have hE2 := c1_e2lat_bound
  have hpl := Real.pi_gt_3141592
  have hph := Real.pi_lt_3141593
  unfold intersectPair
  dsimp only [stP, stQ]
  rw [c1_endpoint1_eval, c1_endpoint2_eval]
  dsimp only
  rw [c1_line_eval _ _ _ (by linarith) hE2]
  dsimp only
  set ELON : ℝ := degrees (arctan (-sin (π / 180) * sin (5000 / 6371.0) * sin (π / 1800)
      / (cos (5000 / 6371.0) - cos (π / 1800) * (cos (π / 1800) * cos (5000 / 6371.0)
        + sin (π / 1800) * sin (5000 / 6371.0) * cos (π / 180)))) - π) with hELONdef
  set ELAT : ℝ := degrees (arcsin (cos (π / 1800) * cos (5000 / 6371.0)
      + sin (π / 1800) * sin (5000 / 6371.0) * cos (π / 180))) with hELATdef
  set PY : ℝ := 89.9 - 90 / ELON * (ELAT - 89.9) with hPYdef
  have hELONneg : ELON < 0 := by linarith
  have hk1 : 90 / ELON ≤ -0.5 := by
    rw [div_le_iff_of_neg hELONneg]
    linarith
  have hk2 : (-0.512 : ℝ) ≤ 90 / ELON := by
    rw [le_div_iff_of_neg hELONneg]
    linarith
  have hPYub : PY ≤ 71.9 := by
    rw [hPYdef]
    nlinarith only [mul_le_mul (by linarith : (0.5 : ℝ) ≤ -(90 / ELON))
      (by linarith : (36 : ℝ) ≤ -(ELAT - 89.9)) (by norm_num : (0:ℝ) ≤ 36)
      (by linarith : (0:ℝ) ≤ -(90 / ELON))]
  have hPYlb : (43 : ℝ) ≤ PY := by
    rw [hPYdef]
    nlinarith only [mul_le_mul (by linarith : -(90 / ELON) ≤ 0.512)
      (by linarith : -(ELAT - 89.9) ≤ 89.9) (by linarith : (0:ℝ) ≤ -(ELAT - 89.9))
      (by norm_num : (0:ℝ) ≤ 0.512)]
  clear_value PY ELAT ELON
  have hcond1 : wrapDiff (atan2 (-90 - 0) (PY - 89.9) - radians 359) < π / 2 := by
    rw [show radians 359 = 2 * π - π / 180 from by unfold radians; ring]
    rw [atan2_of_neg_neg (by norm_num) (by linarith : PY - 89.9 < 0)]
    have hw : (0 : ℝ) < (-90 - 0) / (PY - 89.9) :=
      div_pos_of_neg_of_neg (by norm_num) (by linarith)
    have harcpos : (0 : ℝ) < arctan ((-90 - 0) / (PY - 89.9)) := by
      have h := Real.arctan_strictMono hw
      rwa [Real.arctan_zero] at h
    have harclt := Real.arctan_lt_pi_div_two ((-90 - 0) / (PY - 89.9))
    unfold wrapDiff
    rw [abs_of_neg (by linarith :
      arctan ((-90 - 0) / (PY - 89.9)) - π - (2 * π - π / 180) < 0)]
    rw [if_pos (by linarith :
      π < -(arctan ((-90 - 0) / (PY - 89.9)) - π - (2 * π - π / 180)))]
    linarith
  have hcond2 : wrapDiff (atan2 (-90 - -90) (PY - 10) - radians 0) < π / 2 := by
    rw [show ((-90 : ℝ)) - -90 = 0 from by norm_num]
    rw [atan2_zero_of_pos (by linarith : (0 : ℝ) < PY - 10)]
    rw [show radians (0 : ℝ) = 0 from by unfold radians; ring, sub_zero, wrapDiff_zero]
    linarith
  rw [if_pos ⟨hcond1, hcond2⟩]
  rw [if_pos ⟨by linarith, by linarith, by norm_num, by norm_num⟩]

/-- Claim C1 is violated by the code: for the stations stP (lat 89.9, lon 0,
azimuth 359) and stQ (lat 10, lon -90, azimuth 0) with a 5000 km projection
length, the pair loop ACCEPTS an intersection point (about (67.39, -90))
although the wrap-normalized angular deviation between station stP's azimuth
and the bearing from stP to the point is at least 90 degrees.  The raw
difference `abs(dir - azimuth)` exceeds 2*pi here, so the wrap `2*pi - diff`
is negative and the `< pi/2` test passes vacuously: the point lies behind
station stP, contradicting both the claim and the code's own comment. -/
theorem C1_direction_filter_bug :
    ∃ p, intersectPair stP stQ 5000 = some p
      ∧ π / 2 ≤ angleDeviation (radians stP.azimuth)
          (atan2 (p.2 - stP.lon) (p.1 - stP.lat)) := by
  obtain ⟨hlon_ub, hlon_lb⟩ := c1_e1lon_bounds
  obtain ⟨hlat_lb, hlat_ub⟩ := c1_e1lat_bounds
  obtain ⟨hsbl, hsbh⟩ := c1_sin_b_bounds
  obtain ⟨hcbl, hcbh⟩ := c1_cos_b_bounds
  have hpl := Real.pi_gt_3141592
  have hph := Real.pi_lt_3141593
  refine ⟨(89.9 - 90 / degrees (arctan (-sin (π / 180) * sin (5000 / 6371.0)
        * sin (π / 1800) / (cos (5000 / 6371.0) - cos (π / 1800)
          * (cos (π / 1800) * cos (5000 / 6371.0)
            + sin (π / 1800) * sin (5000 / 6371.0) * cos (π / 180)))) - π)
      * (degrees (arcsin (cos (π / 1800) * cos (5000 / 6371.0)
          + sin (π / 1800) * sin (5000 / 6371.0) * cos (π / 180))) - 89.9),
     -90), c1_intersect_value, ?_⟩
  dsimp only [stP]
  set ELON : ℝ := degrees (arctan (-sin (π / 180) * sin (5000 / 6371.0) * sin (π / 1800)
      / (cos (5000 / 6371.0) - cos (π / 1800) * (cos (π / 1800) * cos (5000 / 6371.0)
        + sin (π / 1800) * sin (5000 / 6371.0) * cos (π / 180)))) - π) with hELONdef
  set ELAT : ℝ := degrees (arcsin (cos (π / 1800) * cos (5000 / 6371.0)
      + sin (π / 1800) * sin (5000 / 6371.0) * cos (π / 180))) with hELATdef
  set PY : ℝ := 89.9 - 90 / ELON * (ELAT - 89.9) with hPYdef
  have hELONneg : ELON < 0 := by linarith
  have hk1 : 90 / ELON ≤ -0.5 := by
    rw [div_le_iff_of_neg hELONneg]
    linarith
  have hk2 : (-0.512 : ℝ) ≤ 90 / ELON := by
    rw [le_div_iff_of_neg hELONneg]
    linarith
  have hPYub : PY ≤ 71.9 := by
    rw [hPYdef]
    nlinarith only [mul_le_mul (by linarith : (0.5 : ℝ) ≤ -(90 / ELON))
      (by linarith : (36 : ℝ) ≤ -(ELAT - 89.9)) (by norm_num : (0:ℝ) ≤ 36)
      (by linarith : (0:ℝ) ≤ -(90 / ELON))]
  have hPYlb : (43 : ℝ) ≤ PY := by
    rw [hPYdef]
    nlinarith only [mul_le_mul (by linarith : -(90 / ELON) ≤ 0.512)
      (by linarith : -(ELAT - 89.9) ≤ 89.9) (by linarith : (0:ℝ) ≤ -(ELAT - 89.9))
      (by norm_num : (0:ℝ) ≤ 0.512)]
  clear_value PY ELAT ELON
  rw [show radians 359 = 2 * π - π / 180 from by unfold radians; ring]
  rw [atan2_of_neg_neg (by norm_num) (by linarith : PY - 89.9 < 0)]
  have hw : (0 : ℝ) < (-90 - 0) / (PY - 89.9) :=
    div_pos_of_neg_of_neg (by norm_num) (by linarith)
  have harcpos : (0 : ℝ) < arctan ((-90 - 0) / (PY - 89.9)) := by
    have h := Real.arctan_strictMono hw
    rwa [Real.arctan_zero] at h
  have harclt := Real.arctan_lt_pi_div_two ((-90 - 0) / (PY - 89.9))
  unfold angleDeviation pyMod
  dsimp only
  have hfloor : ⌊(2 * π - π / 180 - (arctan ((-90 - 0) / (PY - 89.9)) - π))
      / (2 * π)⌋ = 1 := by
    rw [Int.floor_eq_iff]
    push_cast
    constructor
    · rw [le_div_iff (by positivity)]
      linarith
    · rw [div_lt_iff (by positivity)]
      linarith
  rw [hfloor]
  push_cast
  rw [if_neg (by linarith :
    ¬(π < 2 * π - π / 180 - (arctan ((-90 - 0) / (PY - 89.9)) - π) - 2 * π * 1))]
  have htan02 : tan (π / 180) ≤ 0.2 := by
    rw [Real.tan_eq_sin_div_cos, div_le_iff (by linarith : (0 : ℝ) < cos (π / 180))]
    linarith
  have hwinv : tan (π / 180) ≤ ((-90 - 0) / (PY - 89.9))⁻¹ := by
    rw [inv_div]
    rw [le_div_iff_of_neg (by norm_num : ((-90 : ℝ)) - 0 < 0)]
    linarith
  have hmono := Real.arctan_strictMono.monotone hwinv
  rw [Real.arctan_tan (by linarith) (by linarith)] at hmono
  rw [Real.arctan_inv_of_pos hw] at hmono
  linarith

end

end SaterMap
